import Mathlib

/-!
# Connection producer of the Couchbase database plugin

A shallow embedding of `connection_producer.go`: the producer struct, `secretValues`,
`Init`, `Initialize`, `Connection`, `close` and `Close`, followed by theorems about them.

Conventions of the embedding.

* A method takes the receiver as an argument and returns a `Ret`: the Go results, the
  receiver after the call, and the list of calls that left the package with an effect or
  that the specification counts (mutex, base64/PEM decoding, gocb transport), in order.
* The outcome of every library call that depends on the outside world is read from an
  `Env` argument, one `Env` per method call, so that successive calls may see different
  outcomes.
* A pair of Go results `(v, err)` is a pair of `Option`s; `none` is `nil`.
* The embedding is sequential: the mutex appears only as `Lock`/`Unlock` entries of the
  trace.
-/

namespace Couchbase

/-! ## Errors -/

/-- Go `error` values the package produces or passes on. -/
inductive Error where
  /-- Built by `errors.New(text)` or by `fmt.Errorf(text)` with a verb-free text. -/
  | New (text : String)
  /-- Built by `errwrap.Wrapf`: an outer error with message `Outer` around `Inner`. -/
  | Wrapped (Outer : String) (Inner : Error)
  /-- The `*mapstructure.Error` of a failed decode, one message per failed field. -/
  | Decoding (Errors : List String)
deriving DecidableEq, Repr

/-- The method `Error()` of the three kinds of error: the text itself, for a wrapped error
the outer message, and for a decode error the count of failures followed by the sorted
list of their messages. -/
def Error.text : Error → String
  | .New text => text
  | .Wrapped Outer _ => Outer
  | .Decoding Errors =>
    toString Errors.length ++ " error(s) decoding:\n\n" ++
      String.intercalate "\n" ((Errors.map (fun e => "* " ++ e)).insertionSort (· ≤ ·))

/-- Replacement of every non-overlapping occurrence of the non-empty `old` by `new`, left to
right, on character lists; the first argument counts the characters of a matched
occurrence that remain to be skipped. -/
def replaceChars (old new : List Char) : Nat → List Char → List Char
  | _, [] => []
  | skip + 1, _ :: cs => replaceChars old new skip cs
  | 0, c :: cs =>
    if old.isPrefixOf (c :: cs) then new ++ replaceChars old new (old.length - 1) cs
    else c :: replaceChars old new 0 cs

/-- Go `strings.Replace(s, old, new, -1)` for a non-empty `old`. -/
def Replace (s old new : String) : String :=
  ⟨replaceChars old.data new.data 0 s.data⟩

/-- The function `errwrap.Wrapf(format, err)` for a non-nil `err`: the outer message is
`format` with its placeholder replaced by the message of `err`, and `err` is kept as
the inner error. -/
def Wrapf (format : String) (err : Error) : Error :=
  .Wrapped (Replace format "\x7b\x7berr\x7d\x7d" err.text) err

/-- The sentinel `connutil.ErrNotInitialized`. -/
def ErrNotInitialized : Error := .New "connection has not been initialized"

/-! ## Strings -/

/-- Go `len(s)` of a string: its length in bytes. -/
def len (s : String) : Nat := s.utf8ByteSize

/-- Go `strings.HasPrefix(s, p)`. -/
def HasPrefix (s p : String) : Bool := p.data.isPrefixOf s.data

/-! ## The gocb client and the TLS material -/

/-- A `*gocb.Cluster`: the handle of an open cluster connection, known by its identity. -/
structure Cluster where
  id : Nat
deriving DecidableEq, Repr

/-- An `*x509.CertPool`, known by the PEM blocks appended to it. -/
structure CertPool where
  appended : List (List Nat)
deriving DecidableEq, Repr

/-- The call `x509.NewCertPool()`. -/
def NewCertPool : CertPool := ⟨[]⟩

/-- The two fields of `gocb.SecurityConfig` the package sets; the default is its zero
value. -/
structure SecurityConfig where
  TLSRootCAs : Option CertPool := none
  TLSSkipVerify : Bool := false
deriving DecidableEq, Repr

/-- The fields of `gocb.ClusterOptions` the package sets. -/
structure ClusterOptions where
  Username : String
  Password : String
  SecurityConfig : SecurityConfig
deriving DecidableEq, Repr

/-- Go `time.Second`, in nanoseconds. -/
def Second : Nat := 1000000000

/-- A call made by a method, as recorded in its trace. -/
inductive Event where
  /-- The mutex is acquired: `c.Lock()`. -/
  | Lock
  /-- The mutex is released: the deferred `c.Unlock()`. -/
  | Unlock
  /-- The call `base64.StdEncoding.DecodeString(s)`. -/
  | DecodeString (s : String)
  /-- The call `rootCAs.AppendCertsFromPEM(pem)`. -/
  | AppendCertsFromPEM (pem : List Nat)
  /-- The call `gocb.Connect(connStr, opts)`. -/
  | Connect (connStr : String) (opts : ClusterOptions)
  /-- The call `cluster.Bucket(name)`. -/
  | Bucket (cluster : Cluster) (name : String)
  /-- The call `bucket.WaitUntilReady(timeout, nil)` on the bucket `name` of `cluster`. -/
  | BucketWaitUntilReady (cluster : Cluster) (name : String) (timeout : Nat)
  /-- The call `cluster.WaitUntilReady(timeout, nil)`. -/
  | ClusterWaitUntilReady (cluster : Cluster) (timeout : Nat)
  /-- The call `cluster.Close(&gocb.ClusterCloseOptions{})`. -/
  | Close (cluster : Cluster)
deriving DecidableEq, Repr

/-- Whether the event is a connection-establishment attempt, `gocb.Connect`. -/
def Event.isConnect : Event → Bool
  | .Connect _ _ => true
  | _ => false

/-- Whether the event is a call into the gocb transport. -/
def Event.isTransport : Event → Bool
  | .Connect _ _ => true
  | .Bucket _ _ => true
  | .BucketWaitUntilReady _ _ _ => true
  | .ClusterWaitUntilReady _ _ => true
  | .Close _ => true
  | _ => false

/-- Whether the event decodes TLS material (base64 or PEM). -/
def Event.isDecoding : Event → Bool
  | .DecodeString _ => true
  | .AppendCertsFromPEM _ => true
  | _ => false

/-- The outcomes of the library calls made during one method call. -/
structure Env where
  /-- Result of `base64.StdEncoding.DecodeString`: the bytes, or the decode error. -/
  DecodeString : String → Except Error (List Nat)
  /-- Result of `AppendCertsFromPEM`: whether at least one certificate was added. -/
  AppendCertsFromPEM : List Nat → Bool
  /-- Result of `gocb.Connect`: a cluster handle, or an error (and then a nil handle). -/
  Connect : String → ClusterOptions → Except Error Cluster
  /-- Result of `WaitUntilReady` on a bucket: `none` when ready, else the error. -/
  BucketWaitUntilReady : Cluster → String → Nat → Option Error
  /-- Result of `WaitUntilReady` on the cluster: `none` when ready, else the error. -/
  ClusterWaitUntilReady : Cluster → Nat → Option Error
  /-- Result of `cluster.Close`: `none` on success, else the error. -/
  Close : Cluster → Option Error

/-! ## The configuration map, as `mapstructure.WeakDecode` reads it -/

/-- What the configuration map holds for one field of the struct: `mapstructure` looks the
field up under its `mapstructure` tag, or under the field name when it has no such tag,
first exactly and then ignoring case. -/
inductive Entry (α : Type) where
  /-- No key matches the field, or the value under it is `nil`: the field is left as it
  is. -/
  | absent
  /-- The value found converts, weakly, to `v`. -/
  | value (v : α)
  /-- The value found does not convert to the type of the field; `msg` is the message of
  the failure. -/
  | invalid (msg : String)
deriving DecidableEq, Repr

/-- The field after the entry is decoded into it. -/
def Entry.decode {α : Type} (e : Entry α) (field : α) : α :=
  match e with
  | .value v => v
  | _ => field

/-- The decode failures of an entry. -/
def Entry.errors {α : Type} (e : Entry α) : List String :=
  match e with
  | .invalid msg => [msg]
  | _ => []

/-- A configuration map `map[string]interface{}`, seen through the settable fields of
`couchbaseDBConnectionProducer`, in the order of the struct. The tag of `Bucket_name` is
malformed (`mapstructure:bucket_name"`), so that field, like the untagged exported fields
`Initialized` and `Type` (here `Type_`), is looked up under its field name; ignoring
case, the key `bucket_name` still matches it. Keys that match no settable field are
ignored by the decoder and are not represented. The embedded mutex is taken not to be
addressed by the map. -/
structure Config where
  public_key : Entry String := .absent
  private_key : Entry String := .absent
  project_id : Entry String := .absent
  hosts : Entry String := .absent
  port : Entry Int := .absent
  username : Entry String := .absent
  password : Entry String := .absent
  tls : Entry Bool := .absent
  insecure_tls : Entry Bool := .absent
  base64pem : Entry String := .absent
  Bucket_name : Entry String := .absent
  Initialized : Entry Bool := .absent
  Type_ : Entry String := .absent
deriving DecidableEq, Repr

/-- The messages of all fields that fail to decode, in the order of the struct. -/
def Config.errors (m : Config) : List String :=
  m.public_key.errors ++ m.private_key.errors ++ m.project_id.errors ++ m.hosts.errors ++
  m.port.errors ++ m.username.errors ++ m.password.errors ++ m.tls.errors ++
  m.insecure_tls.errors ++ m.base64pem.errors ++ m.Bucket_name.errors ++
  m.Initialized.errors ++ m.Type_.errors

/-! ## The producer -/

/-- The struct `couchbaseDBConnectionProducer`, without its mutex; the default is the zero
value of the struct, a freshly created producer. -/
structure couchbaseDBConnectionProducer where
  PublicKey : String := ""
  PrivateKey : String := ""
  ProjectID : String := ""
  Hosts : String := ""
  Port : Int := 0
  Username : String := ""
  Password : String := ""
  TLS : Bool := false
  Insecure_TLS : Bool := false
  Base64Pem : String := ""
  Bucket_name : String := ""
  Initialized : Bool := false
  rawConfig : Option Config := none
  Type_ : String := ""
  cluster : Option Cluster := none
deriving DecidableEq, Repr

/-- The results of a method call: the Go results, the receiver afterwards, and the calls
made. -/
structure Ret (ρ : Type) where
  result : ρ
  state : couchbaseDBConnectionProducer
  trace : List Event

/-- The call `mapstructure.WeakDecode(input, c)`: every settable field of `c` that the map
has an entry for is decoded, a field without an entry or whose entry fails to decode keeps
its value, and the failures are returned together after all fields have been tried. The
unexported fields `rawConfig` and `cluster` are never set. -/
def WeakDecode (input : Config) (c : couchbaseDBConnectionProducer) :
    couchbaseDBConnectionProducer × Option Error :=
  ({ c with
      PublicKey := input.public_key.decode c.PublicKey
      PrivateKey := input.private_key.decode c.PrivateKey
      ProjectID := input.project_id.decode c.ProjectID
      Hosts := input.hosts.decode c.Hosts
      Port := input.port.decode c.Port
      Username := input.username.decode c.Username
      Password := input.password.decode c.Password
      TLS := input.tls.decode c.TLS
      Insecure_TLS := input.insecure_tls.decode c.Insecure_TLS
      Base64Pem := input.base64pem.decode c.Base64Pem
      Bucket_name := input.Bucket_name.decode c.Bucket_name
      Initialized := input.Initialized.decode c.Initialized
      Type_ := input.Type_.decode c.Type_ },
   if input.errors = [] then none else some (.Decoding input.errors))

/-- A Go map with string keys and string values: at most one entry per key. -/
abbrev StringMap := List (String × String)

/-- The assignment `m[k] = v`. -/
def StringMap.set (m : StringMap) (k v : String) : StringMap :=
  (k, v) :: m.filter (fun e => e.1 != k)

/-- The lookup `m[k]`, `none` when the key is not in the map. -/
def StringMap.get (m : StringMap) (k : String) : Option String :=
  List.lookup k m

namespace couchbaseDBConnectionProducer

/-- Method `secretValues`: the map literal `{c.Password: "[password]", c.Username:
"[username]"}`, whose entries are stored in the order they are written. -/
def secretValues (c : couchbaseDBConnectionProducer) : StringMap :=
  (StringMap.set [] c.Password "[password]").set c.Username "[username]"

/-- The part of `Connection` from `gocb.Connect` on (lines 122-153): connect with the
stored hosts and credentials and the security configuration `sec`, store the result in
`c.cluster`, then wait until the bucket, or else the cluster, is ready. `tr` holds the
calls made so far. -/
def Connection.connect (env : Env) (c : couchbaseDBConnectionProducer) (sec : SecurityConfig)
    (tr : List Event) : Ret (Option Cluster × Option Error) :=
  let opts : ClusterOptions :=
    { Username := c.Username, Password := c.Password, SecurityConfig := sec }
  let tr := tr ++ [Event.Connect c.Hosts opts]
  match env.Connect c.Hosts opts with
  | .error err =>
    ⟨(none, some (Wrapf "error in Connection: \x7b\x7berr\x7d\x7d" err)),
      { c with cluster := none }, tr⟩
  | .ok cl =>
    let c := { c with cluster := some cl }
    if c.Bucket_name != "" then
      let tr := tr ++ [Event.Bucket cl c.Bucket_name,
        Event.BucketWaitUntilReady cl c.Bucket_name (5 * Second)]
      match env.BucketWaitUntilReady cl c.Bucket_name (5 * Second) with
      | some err =>
        ⟨(none, some (Wrapf "error in Connection waiting for bucket: \x7b\x7berr\x7d\x7d" err)),
          c, tr⟩
      | none => ⟨(some cl, none), c, tr⟩
    else
      let tr := tr ++ [Event.ClusterWaitUntilReady cl (5 * Second)]
      match env.ClusterWaitUntilReady cl (5 * Second) with
      | some err =>
        ⟨(none, some (Wrapf "error in Connection waiting for cluster: \x7b\x7berr\x7d\x7d" err)),
          c, tr⟩
      | none => ⟨(some cl, none), c, tr⟩

/-- Method `Connection`. It does not take the mutex. -/
def Connection (env : Env) (c : couchbaseDBConnectionProducer) :
    Ret (Option Cluster × Option Error) :=
  if !c.Initialized then ⟨(none, some ErrNotInitialized), c, []⟩
  else
    match c.cluster with
    | some cl => ⟨(some cl, none), c, []⟩
    | none =>
      if c.TLS then
        match env.DecodeString c.Base64Pem with
        | .error err =>
          ⟨(none, some (Wrapf "error decoding Base64Pem: \x7b\x7berr\x7d\x7d" err)), c,
            [Event.DecodeString c.Base64Pem]⟩
        | .ok PEM =>
          let rootCAs : CertPool := ⟨NewCertPool.appended ++ [PEM]⟩
          let ok := env.AppendCertsFromPEM PEM
          if !ok then
            ⟨(none, some (.New "Failed to parse root certificate")), c,
              [Event.DecodeString c.Base64Pem, Event.AppendCertsFromPEM PEM]⟩
          else
            Connection.connect env c
              { TLSRootCAs := some rootCAs, TLSSkipVerify := c.Insecure_TLS }
              [Event.DecodeString c.Base64Pem, Event.AppendCertsFromPEM PEM]
      else
        Connection.connect env c {} []

/-- Method `Init`. The mutex is taken on entry and released, by the deferred `Unlock`,
when the method returns. -/
def Init (env : Env) (c : couchbaseDBConnectionProducer) (config : Config)
    (verifyConnection : Bool) : Ret (Option Config × Option Error) :=
  let c := { c with rawConfig := some config }
  match WeakDecode config c with
  | (c, some err) => ⟨(none, some err), c, [Event.Lock, Event.Unlock]⟩
  | (c, none) =>
    if len c.Hosts == 0 then
      ⟨(none, some (.New "hosts cannot be empty")), c, [Event.Lock, Event.Unlock]⟩
    else if len c.Username == 0 then
      ⟨(none, some (.New "username cannot be empty")), c, [Event.Lock, Event.Unlock]⟩
    else if len c.Password == 0 then
      ⟨(none, some (.New "password cannot be empty")), c, [Event.Lock, Event.Unlock]⟩
    else
      let tlsErr : Option Error :=
        if c.TLS then
          if len c.Base64Pem == 0 then some (.New "base64pem cannot be empty")
          else if !HasPrefix c.Hosts "couchbases://" then
            some (.New "hosts list must start with couchbases:// for TLS connection")
          else none
        else none
      match tlsErr with
      | some err => ⟨(none, some err), c, [Event.Lock, Event.Unlock]⟩
      | none =>
        let c := { c with Initialized := true }
        if verifyConnection then
          let r := Connection env c
          match r.result.2 with
          | some err =>
            ⟨(none, some (Wrapf "error verifying connection: \x7b\x7berr\x7d\x7d" err)),
              r.state, Event.Lock :: r.trace ++ [Event.Unlock]⟩
          | none => ⟨(some config, none), r.state, Event.Lock :: r.trace ++ [Event.Unlock]⟩
        else ⟨(some config, none), c, [Event.Lock, Event.Unlock]⟩

/-- Method `Initialize`: `Init` without the saved configuration. -/
def Initialize (env : Env) (c : couchbaseDBConnectionProducer) (config : Config)
    (verifyConnection : Bool) : Ret (Option Error) :=
  let r := Init env c config verifyConnection
  ⟨r.result.2, r.state, r.trace⟩

/-- Method `close`: close the cached cluster, if any, without locking. -/
def close (env : Env) (c : couchbaseDBConnectionProducer) : Ret (Option Error) :=
  match c.cluster with
  | some cl =>
    match env.Close cl with
    | some err => ⟨some err, c, [Event.Close cl]⟩
    | none => ⟨none, { c with cluster := none }, [Event.Close cl]⟩
  | none => ⟨none, { c with cluster := none }, []⟩

/-- Method `Close`: `close` under the mutex. -/
def Close (env : Env) (c : couchbaseDBConnectionProducer) : Ret (Option Error) :=
  let r := close env c
  ⟨r.result, r.state, Event.Lock :: r.trace ++ [Event.Unlock]⟩

end couchbaseDBConnectionProducer

/-! ## Sequences of calls -/

/-- One call of a method on the producer, with the outcomes of the library calls it
makes. -/
inductive Call where
  | Init (env : Env) (config : Config) (verifyConnection : Bool)
  | Connection (env : Env)
  | Close (env : Env)

/-- The receiver after the call. -/
def Call.apply (k : Call) (c : couchbaseDBConnectionProducer) : couchbaseDBConnectionProducer :=
  match k with
  | .Init env config verifyConnection => (c.Init env config verifyConnection).state
  | .Connection env => (c.Connection env).state
  | .Close env => (c.Close env).state

/-- Whether the call is a call of `Init`. -/
def Call.isInit : Call → Bool
  | .Init _ _ _ => true
  | _ => false

/-- The receiver after the calls, made one after the other from state `c`. -/
def run (c : couchbaseDBConnectionProducer) (calls : List Call) : couchbaseDBConnectionProducer :=
  calls.foldl (fun c k => k.apply c) c

/-- The validation rules of `Init`, read on the stored configuration. -/
def Valid (c : couchbaseDBConnectionProducer) : Prop :=
  c.Hosts ≠ "" ∧ c.Username ≠ "" ∧ c.Password ≠ "" ∧
  (c.TLS = true → c.Base64Pem ≠ "" ∧ HasPrefix c.Hosts "couchbases://" = true)

/-! ## Sample environments -/

/-- An environment in which every library call succeeds: base64 decoding yields `pem`,
the PEM data holds a certificate, `gocb.Connect` returns the handle `cl`, both readiness
waits and the close succeed. -/
def Env.ready (cl : Cluster) (pem : List Nat) : Env where
  DecodeString := fun _ => .ok pem
  AppendCertsFromPEM := fun _ => true
  Connect := fun _ _ => .ok cl
  BucketWaitUntilReady := fun _ _ _ => none
  ClusterWaitUntilReady := fun _ _ => none
  Close := fun _ => none

/-- An environment in which `gocb.Connect` returns the handle `cl` and both readiness waits
fail with `err`. -/
def Env.notReady (cl : Cluster) (err : Error) : Env where
  DecodeString := fun _ => .ok []
  AppendCertsFromPEM := fun _ => true
  Connect := fun _ _ => .ok cl
  BucketWaitUntilReady := fun _ _ _ => some err
  ClusterWaitUntilReady := fun _ _ => some err
  Close := fun _ => none

/-- An environment in which every library call fails with `err`. -/
def Env.down (err : Error) : Env where
  DecodeString := fun _ => .error err
  AppendCertsFromPEM := fun _ => false
  Connect := fun _ _ => .error err
  BucketWaitUntilReady := fun _ _ _ => some err
  ClusterWaitUntilReady := fun _ _ => some err
  Close := fun _ => some err

/-! ## Sample configurations and states -/

/-- The configuration `{hosts: "couchbase://x", username: "u", password: "p"}`. -/
def Config.plain : Config :=
  { hosts := .value "couchbase://x", username := .value "u", password := .value "p" }

/-- The configuration `{hosts: "couchbases://x", username: "u", password: "p", tls: true,
base64pem: ""}`. -/
def Config.tlsNoPem : Config :=
  { hosts := .value "couchbases://x", username := .value "u", password := .value "p",
    tls := .value true, base64pem := .value "" }

/-- A producer configured for `couchbase://x` with user `u`, without TLS and without a
bucket, initialized, with nothing cached. -/
def couchbaseDBConnectionProducer.plain : couchbaseDBConnectionProducer :=
  { Hosts := "couchbase://x", Username := "u", Password := "p", Initialized := true }

/-- The configuration `{hosts: "couchbase://y", username: "u2", password: "p2"}`. -/
def Config.other : Config :=
  { hosts := .value "couchbase://y", username := .value "u2", password := .value "p2" }

/-- The producer `plain` holding the cached handle 7. -/
def couchbaseDBConnectionProducer.cached : couchbaseDBConnectionProducer :=
  { Hosts := "couchbase://x", Username := "u", Password := "p", Initialized := true,
    cluster := some ⟨7⟩ }

/-- The configuration `Config.tlsNoPem` with a port that does not convert to an integer. -/
def Config.tlsNoPemBadPort : Config :=
  { hosts := .value "couchbases://x", username := .value "u", password := .value "p",
    tls := .value true, base64pem := .value "", port := .invalid "port: cannot parse as int" }

/-- The configuration `Config.tlsNoPem` with the further key `Initialized: true`. -/
def Config.tlsNoPemInitialized : Config :=
  { hosts := .value "couchbases://x", username := .value "u", password := .value "p",
    tls := .value true, base64pem := .value "", Initialized := .value true }

/-- The configuration `{hosts: "couchbase://x", username: "u", password: "p", tls: true,
base64pem: "QQ=="}`: TLS on, hosts without the secure scheme. -/
def Config.tlsPlainScheme : Config :=
  { hosts := .value "couchbase://x", username := .value "u", password := .value "p",
    tls := .value true, base64pem := .value "QQ==" }

/-- The configuration `Config.plain` with a port that does not convert to an integer. -/
def Config.plainBadPort : Config :=
  { hosts := .value "couchbase://x", username := .value "u", password := .value "p",
    port := .invalid "port: cannot parse as int" }

/-- The configuration `{hosts: ""}`. -/
def Config.emptyHosts : Config :=
  { hosts := .value "" }

/-- The configuration `Config.plain` with the further key `bucket_name: "b"`. -/
def Config.withBucket : Config :=
  { hosts := .value "couchbase://x", username := .value "u", password := .value "p",
    Bucket_name := .value "b" }

/-- What a successful decode of the entry does to a field: without an entry the field
keeps the value it had `before`, with a value `v` it holds `v` afterwards; an entry that
fails to decode is excluded. -/
def Entry.stores {α : Type} (e : Entry α) (before after : α) : Prop :=
  match e with
  | .absent => after = before
  | .value v => after = v
  | .invalid _ => False

/-- The seven connection settings `Hosts`, `Username`, `Password`, `TLS`, `Insecure_TLS`,
`Base64Pem` and `Bucket_name` of the state `after` come from the map where it has an entry
and from the state `before` where it has none. -/
def Config.stores (m : Config) (before after : couchbaseDBConnectionProducer) : Prop :=
  m.hosts.stores before.Hosts after.Hosts ∧
  m.username.stores before.Username after.Username ∧
  m.password.stores before.Password after.Password ∧
  m.tls.stores before.TLS after.TLS ∧
  m.insecure_tls.stores before.Insecure_TLS after.Insecure_TLS ∧
  m.base64pem.stores before.Base64Pem after.Base64Pem ∧
  m.Bucket_name.stores before.Bucket_name after.Bucket_name

/-- An environment in which base64 decoding fails with `err` and every other library call
succeeds, `gocb.Connect` returning the handle `cl`. -/
def Env.badBase64 (cl : Cluster) (err : Error) : Env where
  DecodeString := fun _ => .error err
  AppendCertsFromPEM := fun _ => true
  Connect := fun _ _ => .ok cl
  BucketWaitUntilReady := fun _ _ _ => none
  ClusterWaitUntilReady := fun _ _ => none
  Close := fun _ => none

/-- An environment in which base64 decoding yields `pem`, no certificate can be added
from it, and every other library call succeeds, `gocb.Connect` returning the handle `cl`. -/
def Env.noCert (cl : Cluster) (pem : List Nat) : Env where
  DecodeString := fun _ => .ok pem
  AppendCertsFromPEM := fun _ => false
  Connect := fun _ _ => .ok cl
  BucketWaitUntilReady := fun _ _ _ => none
  ClusterWaitUntilReady := fun _ _ => none
  Close := fun _ => none

/-- An environment in which closing the cluster fails with `err`. -/
def Env.closeFails (err : Error) : Env where
  DecodeString := fun _ => .ok []
  AppendCertsFromPEM := fun _ => true
  Connect := fun _ _ => .error err
  BucketWaitUntilReady := fun _ _ _ => some err
  ClusterWaitUntilReady := fun _ _ => some err
  Close := fun _ => some err

/-- The configuration `{hosts: "couchbases://x", username: "u", password: "p", tls: true,
base64pem: "!!!"}`: it passes validation, and its certificate is not base64. -/
def Config.tlsBadPem : Config :=
  { hosts := .value "couchbases://x", username := .value "u", password := .value "p",
    tls := .value true, base64pem := .value "!!!" }

/-- The configuration `{hosts: "", Initialized: false}`. -/
def Config.emptyHostsUninitialized : Config :=
  { hosts := .value "", Initialized := .value false }

/-- The configuration with no hosts, username or password and a port that does not convert
to an integer. -/
def Config.emptyBadPort : Config :=
  { port := .invalid "port: cannot parse as int" }

/-- The producer `plain` with the bucket name `b`. -/
def couchbaseDBConnectionProducer.plainBucket : couchbaseDBConnectionProducer :=
  { Hosts := "couchbase://x", Username := "u", Password := "p", Bucket_name := "b",
    Initialized := true }

/-- A producer initialized for TLS with the certificate text `pem64`, nothing cached. -/
def couchbaseDBConnectionProducer.tls (pem64 : String) : couchbaseDBConnectionProducer :=
  { Hosts := "couchbases://x", Username := "u", Password := "p", TLS := true,
    Base64Pem := pem64, Initialized := true }

/-- Whether the call leaves a set `Initialized` flag alone: every call does, except an
`Init` whose map carries `Initialized: false`. -/
def Call.keepsInitialized : Call → Prop
  | .Init _ config _ => config.Initialized ≠ .value false
  | _ => True

/-- Whether the event is a call on the mutex. -/
def Event.isMutex : Event → Bool
  | .Lock => true
  | .Unlock => true
  | _ => false

/-- The validation rules as the specification orders them, read on decoded values: (1)
hosts empty, (2) username empty, (3) password empty, (4) tls and `base64pem` empty, (5)
tls and hosts not prefixed `couchbases://`. The result is the error of the first rule
that is violated, `none` when none is; it is what `Init` is compared with. -/
def firstViolation (hosts username password : String) (tls : Bool) (base64pem : String) :
    Option Error :=
  if hosts = "" then some (.New "hosts cannot be empty")
  else if username = "" then some (.New "username cannot be empty")
  else if password = "" then some (.New "password cannot be empty")
  else if tls = true ∧ base64pem = "" then some (.New "base64pem cannot be empty")
  else if tls = true ∧ HasPrefix hosts "couchbases://" = false then
    some (.New "hosts list must start with couchbases:// for TLS connection")
  else none

/-- The configuration `{hosts: "couchbases://x", username: "u", password: "p", tls: true,
base64pem: "QQ=="}`: it passes validation with TLS on. -/
def Config.tlsGood : Config :=
  { hosts := .value "couchbases://x", username := .value "u", password := .value "p",
    tls := .value true, base64pem := .value "QQ==" }

/-! ## Basic facts -/

theorem len_eq_zero_iff (s : String) : len s = 0 ↔ s = "" := by
  cases s with
  | mk l =>
    cases l with
    | nil => simp [len, String.utf8ByteSize, String.utf8ByteSize.go]
    | cons c cs =>
      have h := Char.utf8Size_pos c
      constructor
      · intro h0
        simp [len, String.utf8ByteSize, String.utf8ByteSize.go] at h0
        omega
      · intro h0
        have := congrArg String.data h0
        simp at this

theorem len_beq_zero (s : String) : (len s == 0) = decide (s = "") := by
  by_cases h : s = ""
  · subst h; rfl
  · have : len s ≠ 0 := fun h0 => h ((len_eq_zero_iff s).1 h0)
    simp [h, this]

namespace couchbaseDBConnectionProducer

/-! ## `Connection` -/

/-- The connect-and-wait part of `Connection` changes no field but `cluster`. -/
theorem Connection.connect_frame (env : Env) (c : couchbaseDBConnectionProducer)
    (sec : SecurityConfig) (tr : List Event) :
    ∃ cl, (Connection.connect env c sec tr).state = { c with cluster := cl } := by
  simp only [Connection.connect]
  cases hc : env.Connect c.Hosts ⟨c.Username, c.Password, sec⟩ with
  | error err => exact ⟨none, rfl⟩
  | ok cl =>
    refine ⟨some cl, ?_⟩
    dsimp only
    split
    · cases env.BucketWaitUntilReady cl c.Bucket_name (5 * Second) <;> rfl
    · cases env.ClusterWaitUntilReady cl (5 * Second) <;> rfl

/-- `Connection` changes no field but `cluster`. -/
theorem Connection_frame (env : Env) (c : couchbaseDBConnectionProducer) :
    ∃ cl, (c.Connection env).state = { c with cluster := cl } := by
  simp only [Connection]
  split
  · exact ⟨c.cluster, rfl⟩
  · split
    · exact ⟨c.cluster, rfl⟩
    · split
      · split
        · exact ⟨c.cluster, rfl⟩
        · split
          · exact ⟨c.cluster, rfl⟩
          · exact Connection.connect_frame _ _ _ _
      · exact Connection.connect_frame _ _ _ _

/-- When the connect-and-wait part returns a nil error, it returns the handle it has
cached, and it has made exactly one connect call. -/
theorem Connection.connect_ok (env : Env) (c : couchbaseDBConnectionProducer)
    (sec : SecurityConfig) (tr : List Event)
    (h : (Connection.connect env c sec tr).result.2 = none) :
    ∃ cl, (Connection.connect env c sec tr).result = (some cl, none) ∧
      (Connection.connect env c sec tr).state.cluster = some cl ∧
      (Connection.connect env c sec tr).trace.countP Event.isConnect =
        tr.countP Event.isConnect + 1 := by
  unfold Connection.connect at h ⊢
  cases hc : env.Connect c.Hosts ⟨c.Username, c.Password, sec⟩ with
  | error err => simp [hc] at h
  | ok cl =>
    simp only [hc] at h ⊢
    refine ⟨cl, ?_⟩
    by_cases hb : c.Bucket_name = ""
    · simp only [hb, bne_self_eq_false, Bool.false_eq_true, if_false] at h ⊢
      cases hw : env.ClusterWaitUntilReady cl (5 * Second) with
      | some err => simp [hw] at h
      | none => simp [Event.isConnect, List.countP_append, List.countP_cons]
    · have hb2 : (c.Bucket_name != "") = true := by simpa using hb
      simp only [hb2, if_true] at h ⊢
      cases hw : env.BucketWaitUntilReady cl c.Bucket_name (5 * Second) with
      | some err => simp [hw] at h
      | none => simp [Event.isConnect, List.countP_append, List.countP_cons]

/-- On a cache miss `Connection` with TLS off is its connect-and-wait part with the zero
security configuration. -/
theorem Connection_miss_plain (env : Env) (c : couchbaseDBConnectionProducer)
    (hi : c.Initialized = true) (hn : c.cluster = none) (ht : c.TLS = false) :
    c.Connection env = Connection.connect env c {} [] := by
  simp [Connection, hi, hn, ht]

/-- On a cache hit `Connection` returns the cached handle and does nothing else. -/
theorem Connection_hit (env : Env) (c : couchbaseDBConnectionProducer) (cl : Cluster)
    (hi : c.Initialized = true) (hc : c.cluster = some cl) :
    c.Connection env = ⟨(some cl, none), c, []⟩ := by
  simp [Connection, hi, hc]

/-- When `Connection` returns a nil error on a cache miss, it returns the handle it has
cached, and it has made exactly one connect call. -/
theorem Connection_miss_ok (env : Env) (c : couchbaseDBConnectionProducer)
    (hi : c.Initialized = true) (hn : c.cluster = none)
    (h : (c.Connection env).result.2 = none) :
    ∃ cl, (c.Connection env).result = (some cl, none) ∧
      (c.Connection env).state.cluster = some cl ∧
      (c.Connection env).trace.countP Event.isConnect = 1 := by
  by_cases ht : c.TLS = true
  · cases hd : env.DecodeString c.Base64Pem with
    | error err => simp [Connection, hi, hn, ht, hd] at h
    | ok PEM =>
      by_cases ha : env.AppendCertsFromPEM PEM = true
      · have e : c.Connection env = Connection.connect env c
            { TLSRootCAs := some ⟨NewCertPool.appended ++ [PEM]⟩, TLSSkipVerify := c.Insecure_TLS }
            [Event.DecodeString c.Base64Pem, Event.AppendCertsFromPEM PEM] := by
          simp [Connection, hi, hn, ht, hd, ha]
        rw [e] at h ⊢
        obtain ⟨cl, h1, h2, h3⟩ := Connection.connect_ok env c _ _ h
        exact ⟨cl, h1, h2, by simpa [Event.isConnect] using h3⟩
      · simp [Connection, hi, hn, ht, hd, ha] at h
  · have ht2 : c.TLS = false := by simpa using ht
    rw [Connection_miss_plain env c hi hn ht2] at h ⊢
    obtain ⟨cl, h1, h2, h3⟩ := Connection.connect_ok env c _ _ h
    exact ⟨cl, h1, h2, by simpa using h3⟩

/-- Claim C4: for every producer state with `Initialized = false`, `Connection` returns a
nil handle and the error `connutil.ErrNotInitialized`, makes no decoding and no transport
call (its trace is empty), and leaves every field of the producer unchanged. -/
theorem Connection_not_initialized (env : Env) (c : couchbaseDBConnectionProducer)
    (h : c.Initialized = false) :
    c.Connection env = ⟨(none, some ErrNotInitialized), c, []⟩ := by
  simp [Connection, h]

/-- Witness of `Connection_not_initialized`: a freshly created producer, in an environment
where every library call would succeed. -/
theorem Connection_not_initialized_witness :
    ({} : couchbaseDBConnectionProducer).Initialized = false ∧
    ({} : couchbaseDBConnectionProducer).Connection (Env.ready ⟨1⟩ []) =
      ⟨(none, some ErrNotInitialized), {}, []⟩ :=
  ⟨rfl, Connection_not_initialized (Env.ready ⟨1⟩ []) {} rfl⟩

/-- Claim C5: for every initialized producer that holds a cached connection, `Connection`
returns exactly the cached handle with a nil error, makes no decoding, connect or
readiness call (its trace is empty) and leaves the producer unchanged; and for an
initialized producer with no cached connection whose first `Connection` call succeeds, a
second `Connection` call (whatever the library would answer) returns the same handle as the
first, and the two calls together make exactly one connect call. -/
theorem Connection_cached (c : couchbaseDBConnectionProducer) (hi : c.Initialized = true) :
    (∀ env cl, c.cluster = some cl → c.Connection env = ⟨(some cl, none), c, []⟩) ∧
    (∀ env₁ env₂, c.cluster = none → (c.Connection env₁).result.2 = none →
      ∃ cl, (c.Connection env₁).result = (some cl, none) ∧
        ((c.Connection env₁).state.Connection env₂).result = (some cl, none) ∧
        ((c.Connection env₁).trace ++
          ((c.Connection env₁).state.Connection env₂).trace).countP Event.isConnect = 1) := by
  refine ⟨fun env cl hc => Connection_hit env c cl hi hc, ?_⟩
  intro env₁ env₂ hn hok
  obtain ⟨cl, h1, h2, h3⟩ := Connection_miss_ok env₁ c hi hn hok
  obtain ⟨x, hx⟩ := Connection_frame env₁ c
  have hi2 : (c.Connection env₁).state.Initialized = true := by rw [hx]; exact hi
  have e := Connection_hit env₂ _ cl hi2 h2
  refine ⟨cl, h1, ?_, ?_⟩
  · rw [e]
  · rw [e]; simpa using h3

/-- Witness of `Connection_cached`: a producer configured for `couchbase://x` without TLS;
with the handle 7 cached the call returns it, and with nothing cached a first call that
connects to handle 7 is followed by a second call in an environment where every library
call fails. -/
theorem Connection_cached_witness :
    (({ Hosts := "couchbase://x", Username := "u", Password := "p", Initialized := true,
        cluster := some ⟨7⟩ } : couchbaseDBConnectionProducer).Connection (Env.down (.New "down"))).result
      = (some ⟨7⟩, none) ∧
    ∃ cl, (({ Hosts := "couchbase://x", Username := "u", Password := "p", Initialized := true }
        : couchbaseDBConnectionProducer).Connection (Env.ready ⟨7⟩ [])).result = (some cl, none) ∧
      ((({ Hosts := "couchbase://x", Username := "u", Password := "p", Initialized := true }
        : couchbaseDBConnectionProducer).Connection (Env.ready ⟨7⟩ [])).state.Connection
          (Env.down (.New "down"))).result = (some cl, none) ∧
      ((({ Hosts := "couchbase://x", Username := "u", Password := "p", Initialized := true }
        : couchbaseDBConnectionProducer).Connection (Env.ready ⟨7⟩ [])).trace ++
        ((({ Hosts := "couchbase://x", Username := "u", Password := "p", Initialized := true }
        : couchbaseDBConnectionProducer).Connection (Env.ready ⟨7⟩ [])).state.Connection
          (Env.down (.New "down"))).trace).countP Event.isConnect = 1 :=
  ⟨by rw [(Connection_cached _ rfl).1 (Env.down (.New "down")) ⟨7⟩ rfl],
   (Connection_cached _ rfl).2 (Env.ready ⟨7⟩ []) (Env.down (.New "down")) rfl rfl⟩


/-- `Init` stores the decoded configuration; beyond that it changes only `Initialized` and,
through `Connection`, `cluster`. -/
theorem Init_frame (env : Env) (c : couchbaseDBConnectionProducer) (config : Config)
    (v : Bool) :
    ∃ i cl, (c.Init env config v).state =
      { (WeakDecode config { c with rawConfig := some config }).1 with
        Initialized := i, cluster := cl } := by
  simp only [Init]
  rcases hW : WeakDecode config { c with rawConfig := some config } with ⟨d, e⟩
  cases e with
  | some err => exact ⟨d.Initialized, d.cluster, rfl⟩
  | none =>
    dsimp only
    split
    · exact ⟨d.Initialized, d.cluster, rfl⟩
    · split
      · exact ⟨d.Initialized, d.cluster, rfl⟩
      · split
        · exact ⟨d.Initialized, d.cluster, rfl⟩
        · split
          · exact ⟨d.Initialized, d.cluster, rfl⟩
          · split
            · obtain ⟨x, hx⟩ := Connection_frame env { d with Initialized := true }
              split <;> exact ⟨true, x, by rw [hx]⟩
            · exact ⟨true, d.cluster, rfl⟩

/-- The second component of `WeakDecode` is nil exactly when no entry fails to decode. -/
theorem WeakDecode_err (config : Config) (c : couchbaseDBConnectionProducer) :
    (WeakDecode config c).2 = if config.errors = [] then none else some (.Decoding config.errors) :=
  rfl

/-- A configuration with a failing entry: `Init` returns the decode error before any
validation. -/
theorem Init_decode_error (env : Env) (c : couchbaseDBConnectionProducer) (config : Config)
    (v : Bool) (he : config.errors ≠ []) :
    c.Init env config v =
      ⟨(none, some (.Decoding config.errors)),
        (WeakDecode config { c with rawConfig := some config }).1, [Event.Lock, Event.Unlock]⟩ := by
  simp only [Init]
  rcases hW : WeakDecode config { c with rawConfig := some config } with ⟨d, e⟩
  have h2 := WeakDecode_err config { c with rawConfig := some config }
  rw [hW, if_neg he] at h2
  dsimp only at h2
  subst h2
  rfl

/-- A configuration that decodes and passes the five checks: `Init` sets `Initialized` and,
when asked to verify, calls `Connection`. -/
theorem Init_valid (env : Env) (c : couchbaseDBConnectionProducer) (config : Config)
    (v : Bool) (he : config.errors = [])
    (hv : Valid (WeakDecode config { c with rawConfig := some config }).1) :
    c.Init env config v =
      if v then
        match (Connection env { (WeakDecode config { c with rawConfig := some config }).1 with
            Initialized := true }).result.2 with
        | some err =>
          ⟨(none, some (Wrapf "error verifying connection: \x7b\x7berr\x7d\x7d" err)),
            (Connection env { (WeakDecode config { c with rawConfig := some config }).1 with
              Initialized := true }).state,
            Event.Lock :: (Connection env { (WeakDecode config { c with rawConfig := some config }).1 with
              Initialized := true }).trace ++ [Event.Unlock]⟩
        | none =>
          ⟨(some config, none),
            (Connection env { (WeakDecode config { c with rawConfig := some config }).1 with
              Initialized := true }).state,
            Event.Lock :: (Connection env { (WeakDecode config { c with rawConfig := some config }).1 with
              Initialized := true }).trace ++ [Event.Unlock]⟩
      else
        ⟨(some config, none),
          { (WeakDecode config { c with rawConfig := some config }).1 with Initialized := true },
          [Event.Lock, Event.Unlock]⟩ := by
  simp only [Init]
  rcases hW : WeakDecode config { c with rawConfig := some config } with ⟨d, e⟩
  have h2 := WeakDecode_err config { c with rawConfig := some config }
  rw [hW, if_pos he] at h2
  dsimp only at h2
  subst h2
  rw [hW] at hv
  obtain ⟨h1, h2, h3, h4⟩ := hv
  dsimp only at h1 h2 h3 h4 ⊢
  by_cases ht : d.TLS = true
  · obtain ⟨h5, h6⟩ := h4 ht
    simp [len_beq_zero, h1, h2, h3, ht, h5, h6]
  · simp [len_beq_zero, h1, h2, h3, ht]

/-- When `Init` returns a nil error, the configuration decoded without error and the stored
configuration passes the five checks. -/
theorem Init_ok_valid (env : Env) (c : couchbaseDBConnectionProducer) (config : Config)
    (v : Bool) (h : (c.Init env config v).result.2 = none) :
    config.errors = [] ∧ Valid (WeakDecode config { c with rawConfig := some config }).1 := by
  by_cases he : config.errors = []
  swap
  · rw [Init_decode_error env c config v he] at h
    simp at h
  refine ⟨he, ?_⟩
  simp only [Init] at h ⊢
  rcases hW : WeakDecode config { c with rawConfig := some config } with ⟨d, e⟩
  have h2 := WeakDecode_err config { c with rawConfig := some config }
  rw [hW, if_pos he] at h2
  dsimp only at h2
  subst h2
  rw [hW] at h
  dsimp only at h ⊢
  by_cases h1 : d.Hosts = ""
  · simp [len_beq_zero, h1] at h
  by_cases h2 : d.Username = ""
  · simp [len_beq_zero, h1, h2] at h
  by_cases h3 : d.Password = ""
  · simp [len_beq_zero, h1, h2, h3] at h
  by_cases ht : d.TLS = true
  · by_cases h5 : d.Base64Pem = ""
    · simp [len_beq_zero, h1, h2, h3, ht, h5] at h
    by_cases h6 : HasPrefix d.Hosts "couchbases://" = true
    · exact ⟨h1, h2, h3, fun _ => ⟨h5, h6⟩⟩
    · simp [len_beq_zero, h1, h2, h3, ht, h5, h6] at h
  · exact ⟨h1, h2, h3, fun h' => absurd h' ht⟩

/-- When `Init` returns a nil error, `Initialized` is set and the given map is returned. -/
theorem Init_ok (env : Env) (c : couchbaseDBConnectionProducer) (config : Config)
    (v : Bool) (h : (c.Init env config v).result.2 = none) :
    (c.Init env config v).state.Initialized = true ∧
      (c.Init env config v).result.1 = some config := by
  obtain ⟨he, hv⟩ := Init_ok_valid env c config v h
  rw [Init_valid env c config v he hv] at h ⊢
  cases v with
  | false => exact ⟨rfl, rfl⟩
  | true =>
    obtain ⟨x, hx⟩ := Connection_frame env
      { (WeakDecode config { c with rawConfig := some config }).1 with Initialized := true }
    simp only [if_true] at h ⊢
    split at h
    · simp at h
    · rename_i hr
      simp only [hr]
      exact ⟨by rw [hx], trivial⟩


/-! ## Claims about `Init` on a fresh producer and about the cache -/

/-- A configuration that decodes but fails one of the five checks: `Init` returns a nil
saved configuration and a non-nil error, makes no call besides taking the mutex, and
leaves the decoded configuration in the producer. -/
theorem Init_not_valid (env : Env) (c : couchbaseDBConnectionProducer) (config : Config)
    (v : Bool) (he : config.errors = [])
    (hv : ¬ Valid (WeakDecode config { c with rawConfig := some config }).1) :
    (c.Init env config v).result.1 = none ∧ (c.Init env config v).result.2 ≠ none ∧
    (c.Init env config v).trace = [Event.Lock, Event.Unlock] ∧
    (c.Init env config v).state = (WeakDecode config { c with rawConfig := some config }).1 := by
  simp only [Init]
  rcases hW : WeakDecode config { c with rawConfig := some config } with ⟨d, e⟩
  have h2 := WeakDecode_err config { c with rawConfig := some config }
  rw [hW, if_pos he] at h2
  dsimp only at h2
  subst h2
  rw [hW] at hv
  dsimp only at hv ⊢
  by_cases h1 : d.Hosts = ""
  · simp [len_beq_zero, h1]
  by_cases h2 : d.Username = ""
  · simp [len_beq_zero, h1, h2]
  by_cases h3 : d.Password = ""
  · simp [len_beq_zero, h1, h2, h3]
  by_cases ht : d.TLS = true
  · by_cases h5 : d.Base64Pem = ""
    · simp [len_beq_zero, h1, h2, h3, ht, h5]
    by_cases h6 : HasPrefix d.Hosts "couchbases://" = true
    · exact absurd ⟨h1, h2, h3, fun _ => ⟨h5, h6⟩⟩ hv
    · simp [len_beq_zero, h1, h2, h3, ht, h5, h6]
  · exact absurd ⟨h1, h2, h3, fun h' => absurd h' ht⟩ hv

/-- The part of claim C1 that holds whatever the map contains: on a fresh producer, when
hosts, username or password is absent or decodes to the empty string, `Init` returns a nil
saved configuration and a non-nil error and makes no call besides taking the mutex; the
flag `Initialized` is then whatever the map decodes into it, `false` when the map has no
entry for it. -/
theorem Init_missing_required (env : Env) (config : Config) (v : Bool)
    (h : config.hosts.decode "" = "" ∨ config.username.decode "" = "" ∨
      config.password.decode "" = "") :
    (({} : couchbaseDBConnectionProducer).Init env config v).result.1 = none ∧
    (({} : couchbaseDBConnectionProducer).Init env config v).result.2 ≠ none ∧
    (({} : couchbaseDBConnectionProducer).Init env config v).trace = [Event.Lock, Event.Unlock] ∧
    (({} : couchbaseDBConnectionProducer).Init env config v).state.Initialized =
      config.Initialized.decode false := by
  by_cases he : config.errors = []
  swap
  · rw [Init_decode_error env {} config v he]
    exact ⟨rfl, by simp, rfl, rfl⟩
  have hv : ¬ Valid (WeakDecode config
      { ({} : couchbaseDBConnectionProducer) with rawConfig := some config }).1 := by
    rintro ⟨h1, h2, h3, _⟩
    rcases h with h | h | h
    · exact h1 h
    · exact h2 h
    · exact h3 h
  obtain ⟨k1, k2, k3, k4⟩ := Init_not_valid env {} config v he hv
  exact ⟨k1, k2, k3, by rw [k4]; rfl⟩

/-- Claim C1, the code at the failing input: on a fresh producer the configuration
`{Initialized: true}` (no hosts, username or password) makes `Init` fail with "hosts cannot
be empty", for either value of `verifyConnection`, and yet leaves `Initialized = true`;
the next `Connection` call then goes on to connect with the empty host list. -/
theorem Init_failure_Initialized_entry (env : Env) (v : Bool) :
    (({} : couchbaseDBConnectionProducer).Init env { Initialized := .value true } v).result =
        (none, some (.New "hosts cannot be empty")) ∧
    (({} : couchbaseDBConnectionProducer).Init env { Initialized := .value true } v).state.Initialized
        = true ∧
    ((({} : couchbaseDBConnectionProducer).Init env { Initialized := .value true } v).state.Connection
        (Env.ready ⟨1⟩ [])).trace =
      [Event.Connect "" { Username := "", Password := "", SecurityConfig := {} },
       Event.ClusterWaitUntilReady ⟨1⟩ (5 * Second)] := by
  refine ⟨rfl, rfl, rfl⟩

/-- Claim C2, the code on the failing inputs: for every initialized producer with no cached
connection and TLS off, when `gocb.Connect` succeeds with handle `cl` and the readiness wait
that follows (on the bucket when `Bucket_name` is non-empty, else on the cluster) fails,
`Connection` returns a nil handle and a non-nil error but has stored `cl` in the
producer, so that the next `Connection` call returns the un-ready handle `cl` with a nil
error and makes no call at all. -/
theorem Connection_not_ready_cached (env env' : Env) (c : couchbaseDBConnectionProducer)
    (cl : Cluster) (err : Error)
    (hi : c.Initialized = true) (hn : c.cluster = none) (ht : c.TLS = false)
    (hc : env.Connect c.Hosts
      { Username := c.Username, Password := c.Password, SecurityConfig := {} } = .ok cl)
    (hw : (if c.Bucket_name != "" then env.BucketWaitUntilReady cl c.Bucket_name (5 * Second)
      else env.ClusterWaitUntilReady cl (5 * Second)) = some err) :
    (c.Connection env).result.1 = none ∧ (c.Connection env).result.2 ≠ none ∧
    (c.Connection env).state.cluster = some cl ∧
    (c.Connection env).state.Connection env' =
      ⟨(some cl, none), (c.Connection env).state, []⟩ := by
  have key : (c.Connection env).result.1 = none ∧ (c.Connection env).result.2 ≠ none ∧
      (c.Connection env).state = { c with cluster := some cl } := by
    rw [Connection_miss_plain env c hi hn ht]
    simp only [Connection.connect, hc]
    by_cases hb : c.Bucket_name = ""
    · simp only [hb, bne_self_eq_false, Bool.false_eq_true, if_false] at hw ⊢
      simp [hw]
    · have hb2 : (c.Bucket_name != "") = true := by simpa using hb
      simp only [hb2, if_true] at hw ⊢
      simp [hw]
  obtain ⟨k1, k2, k3⟩ := key
  refine ⟨k1, k2, by rw [k3], ?_⟩
  exact Connection_hit env' _ cl (by rw [k3]; exact hi) (by rw [k3])

/-- Witness of `Connection_not_ready_cached`: the producer configured for `couchbase://x`,
`gocb.Connect` returns handle 7, the readiness wait fails with "unambiguous timeout". -/
theorem Connection_not_ready_cached_witness :
    (couchbaseDBConnectionProducer.plain.Connection
        (Env.notReady ⟨7⟩ (.New "unambiguous timeout"))).result.1 = none ∧
    (couchbaseDBConnectionProducer.plain.Connection
        (Env.notReady ⟨7⟩ (.New "unambiguous timeout"))).result.2 ≠ none ∧
    (couchbaseDBConnectionProducer.plain.Connection
        (Env.notReady ⟨7⟩ (.New "unambiguous timeout"))).state.cluster = some ⟨7⟩ ∧
    (couchbaseDBConnectionProducer.plain.Connection
        (Env.notReady ⟨7⟩ (.New "unambiguous timeout"))).state.Connection
          (Env.down (.New "down")) =
      ⟨(some ⟨7⟩, none), (couchbaseDBConnectionProducer.plain.Connection
        (Env.notReady ⟨7⟩ (.New "unambiguous timeout"))).state, []⟩ :=
  Connection_not_ready_cached (Env.notReady ⟨7⟩ (.New "unambiguous timeout"))
    (Env.down (.New "down")) couchbaseDBConnectionProducer.plain ⟨7⟩
    (.New "unambiguous timeout") rfl rfl rfl rfl rfl


/-- A configuration that decodes, with hosts, username and password non-empty, TLS on and
an empty `Base64Pem`: `Init` fails with "base64pem cannot be empty" and makes no call
besides taking the mutex. -/
theorem Init_base64pem_empty (env : Env) (c : couchbaseDBConnectionProducer) (config : Config)
    (v : Bool) (he : config.errors = [])
    (h1 : (WeakDecode config { c with rawConfig := some config }).1.Hosts ≠ "")
    (h2 : (WeakDecode config { c with rawConfig := some config }).1.Username ≠ "")
    (h3 : (WeakDecode config { c with rawConfig := some config }).1.Password ≠ "")
    (ht : (WeakDecode config { c with rawConfig := some config }).1.TLS = true)
    (h5 : (WeakDecode config { c with rawConfig := some config }).1.Base64Pem = "") :
    c.Init env config v =
      ⟨(none, some (.New "base64pem cannot be empty")),
        (WeakDecode config { c with rawConfig := some config }).1, [Event.Lock, Event.Unlock]⟩ := by
  simp only [Init]
  rcases hW : WeakDecode config { c with rawConfig := some config } with ⟨d, e⟩
  have h := WeakDecode_err config { c with rawConfig := some config }
  rw [hW, if_pos he] at h
  dsimp only at h
  subst h
  rw [hW] at h1 h2 h3 ht h5
  dsimp only at h1 h2 h3 ht h5 ⊢
  simp [len_beq_zero, h1, h2, h3, ht, h5]

/-- A configuration that decodes, with hosts, username, password and `Base64Pem` non-empty,
TLS on and hosts not starting with `couchbases://`: `Init` fails with the scheme error and
makes no call besides taking the mutex. -/
theorem Init_scheme (env : Env) (c : couchbaseDBConnectionProducer) (config : Config)
    (v : Bool) (he : config.errors = [])
    (h1 : (WeakDecode config { c with rawConfig := some config }).1.Hosts ≠ "")
    (h2 : (WeakDecode config { c with rawConfig := some config }).1.Username ≠ "")
    (h3 : (WeakDecode config { c with rawConfig := some config }).1.Password ≠ "")
    (ht : (WeakDecode config { c with rawConfig := some config }).1.TLS = true)
    (h5 : (WeakDecode config { c with rawConfig := some config }).1.Base64Pem ≠ "")
    (h6 : HasPrefix (WeakDecode config { c with rawConfig := some config }).1.Hosts
      "couchbases://" = false) :
    c.Init env config v =
      ⟨(none, some (.New "hosts list must start with couchbases:// for TLS connection")),
        (WeakDecode config { c with rawConfig := some config }).1, [Event.Lock, Event.Unlock]⟩ := by
  simp only [Init]
  rcases hW : WeakDecode config { c with rawConfig := some config } with ⟨d, e⟩
  have h := WeakDecode_err config { c with rawConfig := some config }
  rw [hW, if_pos he] at h
  dsimp only at h
  subst h
  rw [hW] at h1 h2 h3 ht h5 h6
  dsimp only at h1 h2 h3 ht h5 h6 ⊢
  simp [len_beq_zero, h1, h2, h3, ht, h5, h6]

/-- Claim C3 as stated fails: the producer `cached` holds handle 7, `Init` with the new
configuration `Config.other` succeeds, with and without verification, in an environment
that would connect to handle 8, and the cached cluster afterwards is still handle 7, not
nil. -/
theorem Init_discards_cluster_counterexample :
    cached.cluster = some ⟨7⟩ ∧
    (cached.Init (Env.ready ⟨8⟩ []) Config.other false).result = (some Config.other, none) ∧
    (cached.Init (Env.ready ⟨8⟩ []) Config.other false).state.cluster = some ⟨7⟩ ∧
    (cached.Init (Env.ready ⟨8⟩ []) Config.other true).result = (some Config.other, none) ∧
    (cached.Init (Env.ready ⟨8⟩ []) Config.other true).state.cluster = some ⟨7⟩ ∧
    (cached.Init (Env.ready ⟨8⟩ []) Config.other true).state.Hosts = "couchbase://y" := by
  refine ⟨rfl, rfl, rfl, rfl, rfl, rfl⟩

/-- Claim C3, amended: for every producer state that holds a cached connection and every
configuration for which `Init` succeeds, `Init` keeps the existing connection: it makes no
call besides taking the mutex (in particular it does not close the handle), the cached
cluster after the call is the same handle as before, and the next `Connection` call
returns that handle, opened with the previous configuration, without any call. -/
theorem Init_keeps_cached_cluster (env : Env) (c : couchbaseDBConnectionProducer)
    (config : Config) (v : Bool) (cl : Cluster) (hc : c.cluster = some cl)
    (hok : (c.Init env config v).result.2 = none) :
    (c.Init env config v).trace = [Event.Lock, Event.Unlock] ∧
    (c.Init env config v).state.cluster = some cl ∧
    ∀ env', (c.Init env config v).state.Connection env' =
      ⟨(some cl, none), (c.Init env config v).state, []⟩ := by
  obtain ⟨he, hv⟩ := Init_ok_valid env c config v hok
  have hd : (WeakDecode config { c with rawConfig := some config }).1.cluster = some cl := hc
  have key : c.Init env config v =
      ⟨(some config, none),
        { (WeakDecode config { c with rawConfig := some config }).1 with Initialized := true },
        [Event.Lock, Event.Unlock]⟩ := by
    rw [Init_valid env c config v he hv]
    cases v with
    | false => rfl
    | true =>
      rw [Connection_hit env
        { (WeakDecode config { c with rawConfig := some config }).1 with Initialized := true }
        cl rfl hd]
      rfl
  rw [key]
  exact ⟨rfl, hd, fun env' => Connection_hit env' _ cl rfl hd⟩

/-- Witness of `Init_keeps_cached_cluster`: the producer `cached`, reconfigured with
`Config.other` and verification on. -/
theorem Init_keeps_cached_cluster_witness :
    cached.cluster = some ⟨7⟩ ∧
    (cached.Init (Env.ready ⟨8⟩ []) Config.other true).result.2 = none ∧
    (cached.Init (Env.ready ⟨8⟩ []) Config.other true).trace = [Event.Lock, Event.Unlock] ∧
    (cached.Init (Env.ready ⟨8⟩ []) Config.other true).state.cluster = some ⟨7⟩ ∧
    ∀ env', (cached.Init (Env.ready ⟨8⟩ []) Config.other true).state.Connection env' =
      ⟨(some ⟨7⟩, none), (cached.Init (Env.ready ⟨8⟩ []) Config.other true).state, []⟩ :=
  ⟨rfl, rfl, Init_keeps_cached_cluster (Env.ready ⟨8⟩ []) cached Config.other true ⟨7⟩ rfl rfl⟩


/-- Claim C6 as stated fails at two inputs. With a port that does not convert, the
configuration of the scenario (hosts, username, password non-empty, TLS on, `base64pem`
empty) makes `Init` fail with the decode error, not with "base64pem cannot be empty".
With the further key `Initialized: true`, `Init` fails with "base64pem cannot be empty"
but leaves `Initialized = true`. -/
theorem Init_tls_checks_counterexample :
    (({} : couchbaseDBConnectionProducer).Init (Env.ready ⟨1⟩ []) Config.tlsNoPemBadPort true).result
      = (none, some (.Decoding ["port: cannot parse as int"])) ∧
    (({} : couchbaseDBConnectionProducer).Init (Env.ready ⟨1⟩ []) Config.tlsNoPemInitialized true).result
      = (none, some (.New "base64pem cannot be empty")) ∧
    (({} : couchbaseDBConnectionProducer).Init (Env.ready ⟨1⟩ [])
      Config.tlsNoPemInitialized true).state.Initialized = true := by
  refine ⟨rfl, rfl, rfl⟩

/-- Claim C6, amended: for a fresh producer and every configuration that decodes without
error, whose hosts, username and password are non-empty and whose tls flag is true: if
`base64pem` is empty, `Init` fails with "base64pem cannot be empty"; if `base64pem` is
non-empty and hosts does not start with `couchbases://`, `Init` fails with the scheme
error. In both cases, for either value of `verifyConnection`, the saved configuration is
nil, no call is made besides taking the mutex, and `Initialized` stays false when the
configuration has no entry for the field `Initialized`. -/
theorem Init_tls_checks (env : Env) (config : Config) (v : Bool)
    (he : config.errors = [])
    (h1 : config.hosts.decode "" ≠ "") (h2 : config.username.decode "" ≠ "")
    (h3 : config.password.decode "" ≠ "") (ht : config.tls.decode false = true) :
    (config.base64pem.decode "" = "" →
      (({} : couchbaseDBConnectionProducer).Init env config v).result =
        (none, some (.New "base64pem cannot be empty")) ∧
      (({} : couchbaseDBConnectionProducer).Init env config v).trace =
        [Event.Lock, Event.Unlock] ∧
      (config.Initialized = .absent →
        (({} : couchbaseDBConnectionProducer).Init env config v).state.Initialized = false)) ∧
    (config.base64pem.decode "" ≠ "" →
      HasPrefix (config.hosts.decode "") "couchbases://" = false →
      (({} : couchbaseDBConnectionProducer).Init env config v).result =
        (none, some (.New "hosts list must start with couchbases:// for TLS connection")) ∧
      (({} : couchbaseDBConnectionProducer).Init env config v).trace =
        [Event.Lock, Event.Unlock] ∧
      (config.Initialized = .absent →
        (({} : couchbaseDBConnectionProducer).Init env config v).state.Initialized = false)) := by
  constructor
  · intro h5
    rw [Init_base64pem_empty env {} config v he h1 h2 h3 ht h5]
    refine ⟨rfl, rfl, fun ha => ?_⟩
    simp [WeakDecode, ha, Entry.decode]
  · intro h5 h6
    rw [Init_scheme env {} config v he h1 h2 h3 ht h5 h6]
    refine ⟨rfl, rfl, fun ha => ?_⟩
    simp [WeakDecode, ha, Entry.decode]

/-- Witness of `Init_tls_checks`: the scenario configuration `Config.tlsNoPem` for the
empty certificate, and `Config.tlsPlainScheme` for the scheme, both with verification on
in an environment where every library call would succeed. -/
theorem Init_tls_checks_witness :
    ((({} : couchbaseDBConnectionProducer).Init (Env.ready ⟨1⟩ []) Config.tlsNoPem true).result =
        (none, some (.New "base64pem cannot be empty")) ∧
      (({} : couchbaseDBConnectionProducer).Init (Env.ready ⟨1⟩ []) Config.tlsNoPem true).trace =
        [Event.Lock, Event.Unlock] ∧
      (Config.tlsNoPem.Initialized = .absent →
        (({} : couchbaseDBConnectionProducer).Init (Env.ready ⟨1⟩ [])
          Config.tlsNoPem true).state.Initialized = false)) ∧
    ((({} : couchbaseDBConnectionProducer).Init (Env.ready ⟨1⟩ [])
        Config.tlsPlainScheme true).result =
        (none, some (.New "hosts list must start with couchbases:// for TLS connection")) ∧
      (({} : couchbaseDBConnectionProducer).Init (Env.ready ⟨1⟩ [])
        Config.tlsPlainScheme true).trace = [Event.Lock, Event.Unlock] ∧
      (Config.tlsPlainScheme.Initialized = .absent →
        (({} : couchbaseDBConnectionProducer).Init (Env.ready ⟨1⟩ [])
          Config.tlsPlainScheme true).state.Initialized = false)) :=
  ⟨(Init_tls_checks (Env.ready ⟨1⟩ []) Config.tlsNoPem true rfl (by decide) (by decide)
      (by decide) rfl).1 rfl,
   (Init_tls_checks (Env.ready ⟨1⟩ []) Config.tlsPlainScheme true rfl (by decide) (by decide)
      (by decide) rfl).2 (by decide) rfl⟩

/-- Claim C7 as stated fails: the witness configuration with a port that does not convert
has hosts, username and password non-empty and TLS off, yet `Init` without verification
returns the decode error and a nil saved configuration, and `Initialized` stays false. -/
theorem Init_no_verify_counterexample :
    Config.plainBadPort.hosts = .value "couchbase://x" ∧
    Config.plainBadPort.username = .value "u" ∧
    Config.plainBadPort.password = .value "p" ∧
    Config.plainBadPort.tls = .absent ∧
    (({} : couchbaseDBConnectionProducer).Init (Env.ready ⟨1⟩ []) Config.plainBadPort false).result
      = (none, some (.Decoding ["port: cannot parse as int"])) ∧
    (({} : couchbaseDBConnectionProducer).Init (Env.ready ⟨1⟩ [])
      Config.plainBadPort false).state.Initialized = false := by
  refine ⟨rfl, rfl, rfl, rfl, rfl, rfl⟩

/-- Claim C7, amended: for a fresh producer and every configuration that decodes without
error and passes validation (hosts, username, password non-empty; if tls then `base64pem`
non-empty and hosts prefixed `couchbases://`), `Init` with `verifyConnection = false`
returns a nil error together with exactly the configuration map it was given, keeps that
map as `rawConfig`, sets `Initialized = true`, makes no call besides taking the mutex and
leaves the cached cluster nil. -/
theorem Init_no_verify (env : Env) (config : Config)
    (he : config.errors = [])
    (h1 : config.hosts.decode "" ≠ "") (h2 : config.username.decode "" ≠ "")
    (h3 : config.password.decode "" ≠ "")
    (ht : config.tls.decode false = true →
      config.base64pem.decode "" ≠ "" ∧
        HasPrefix (config.hosts.decode "") "couchbases://" = true) :
    (({} : couchbaseDBConnectionProducer).Init env config false).result = (some config, none) ∧
    (({} : couchbaseDBConnectionProducer).Init env config false).state.Initialized = true ∧
    (({} : couchbaseDBConnectionProducer).Init env config false).state.rawConfig = some config ∧
    (({} : couchbaseDBConnectionProducer).Init env config false).trace =
      [Event.Lock, Event.Unlock] ∧
    (({} : couchbaseDBConnectionProducer).Init env config false).state.cluster = none := by
  have hv : Valid (WeakDecode config
      { ({} : couchbaseDBConnectionProducer) with rawConfig := some config }).1 :=
    ⟨h1, h2, h3, ht⟩
  rw [Init_valid env {} config false he hv]
  exact ⟨rfl, rfl, rfl, rfl, rfl⟩

/-- Witness of `Init_no_verify`: the configuration `{hosts: "couchbase://x", username:
"u", password: "p"}`, in an environment where every library call would fail. -/
theorem Init_no_verify_witness :
    (({} : couchbaseDBConnectionProducer).Init (Env.down (.New "down")) Config.plain false).result
      = (some Config.plain, none) ∧
    (({} : couchbaseDBConnectionProducer).Init (Env.down (.New "down"))
      Config.plain false).state.Initialized = true ∧
    (({} : couchbaseDBConnectionProducer).Init (Env.down (.New "down"))
      Config.plain false).state.rawConfig = some Config.plain ∧
    (({} : couchbaseDBConnectionProducer).Init (Env.down (.New "down")) Config.plain false).trace =
      [Event.Lock, Event.Unlock] ∧
    (({} : couchbaseDBConnectionProducer).Init (Env.down (.New "down"))
      Config.plain false).state.cluster = none :=
  Init_no_verify (Env.down (.New "down")) Config.plain rfl (by decide) (by decide) (by decide)
    (fun h => absurd h (by decide))


/-! ## Re-configuration -/

/-- Method `close` changes no field but `cluster`. -/
theorem close_frame (env : Env) (c : couchbaseDBConnectionProducer) :
    ∃ cl, (c.close env).state = { c with cluster := cl } := by
  simp only [close]
  split
  · split
    · exact ⟨c.cluster, rfl⟩
    · exact ⟨none, rfl⟩
  · exact ⟨none, rfl⟩

/-- Method `Close` changes no field but `cluster`. -/
theorem Close_frame (env : Env) (c : couchbaseDBConnectionProducer) :
    ∃ cl, (c.Close env).state = { c with cluster := cl } :=
  close_frame env c

end couchbaseDBConnectionProducer

open couchbaseDBConnectionProducer

/-- The calls after `calls₁` start from the state `calls₁` ends in. -/
theorem run_append (c : couchbaseDBConnectionProducer) (calls₁ calls₂ : List Call) :
    run c (calls₁ ++ calls₂) = run (run c calls₁) calls₂ := by
  simp [run, List.foldl_append]

/-- A call of `Connection` or `Close` changes no field but `cluster`. -/
theorem Call.apply_frame (k : Call) (c : couchbaseDBConnectionProducer)
    (hk : k.isInit = false) : ∃ cl, k.apply c = { c with cluster := cl } := by
  cases k with
  | Init env config v => simp [Call.isInit] at hk
  | Connection env => exact Connection_frame env c
  | Close env => exact Close_frame env c

/-- Calls of `Connection` and `Close` change no field but `cluster`. -/
theorem run_frame (calls : List Call) (c : couchbaseDBConnectionProducer)
    (h : ∀ k ∈ calls, k.isInit = false) : ∃ cl, run c calls = { c with cluster := cl } := by
  induction calls generalizing c with
  | nil => exact ⟨c.cluster, rfl⟩
  | cons k ks ih =>
    obtain ⟨x, hx⟩ := Call.apply_frame k c (h k (List.mem_cons_self k ks))
    obtain ⟨y, hy⟩ := ih (k.apply c) (fun k' hk' => h k' (List.mem_cons_of_mem k hk'))
    refine ⟨y, ?_⟩
    have : run c (k :: ks) = run (k.apply c) ks := rfl
    rw [this, hy, hx]

/-- Claim C8 as stated fails: after a successful `Init` with `{hosts: "couchbase://x",
username: "u", password: "p"}` and a second `Init` with `{hosts: ""}`, which fails with
"hosts cannot be empty", the producer has `Initialized = true` and an empty `Hosts`. -/
theorem Initialized_valid_counterexample :
    (({} : couchbaseDBConnectionProducer).Init (Env.ready ⟨1⟩ []) Config.plain false).result.2
      = none ∧
    ((run {} [Call.Init (Env.ready ⟨1⟩ []) Config.plain false]).Init (Env.ready ⟨1⟩ [])
      Config.emptyHosts false).result.2 = some (.New "hosts cannot be empty") ∧
    (run {} [Call.Init (Env.ready ⟨1⟩ []) Config.plain false,
      Call.Init (Env.ready ⟨1⟩ []) Config.emptyHosts false]).Initialized = true ∧
    (run {} [Call.Init (Env.ready ⟨1⟩ []) Config.plain false,
      Call.Init (Env.ready ⟨1⟩ []) Config.emptyHosts false]).Hosts = "" ∧
    ¬ Valid (run {} [Call.Init (Env.ready ⟨1⟩ []) Config.plain false,
      Call.Init (Env.ready ⟨1⟩ []) Config.emptyHosts false]) := by
  refine ⟨rfl, rfl, rfl, rfl, fun h => h.1 rfl⟩

/-- Claim C8, amended: in every state reached from a freshly created producer by a sequence
of `Init`, `Connection` and `Close` calls (with arbitrary configurations and arbitrary
library outcomes) in which the last `Init` call returned a nil error, `Initialized` is
true and the stored configuration satisfies the validation rules: `Hosts`, `Username` and
`Password` are non-empty, and if `TLS` is true then `Base64Pem` is non-empty and `Hosts`
starts with `couchbases://`. -/
theorem Initialized_valid_after_Init (before after : List Call) (env : Env) (config : Config)
    (v : Bool)
    (hok : ((run {} before).Init env config v).result.2 = none)
    (hafter : ∀ k ∈ after, k.isInit = false) :
    (run {} (before ++ Call.Init env config v :: after)).Initialized = true ∧
    Valid (run {} (before ++ Call.Init env config v :: after)) := by
  obtain ⟨_, hv⟩ := Init_ok_valid env (run {} before) config v hok
  obtain ⟨hi, _⟩ := Init_ok env (run {} before) config v hok
  obtain ⟨i, x, hx⟩ := Init_frame env (run {} before) config v
  obtain ⟨y, hy⟩ := run_frame after ((run {} before).Init env config v).state hafter
  have e : run {} (before ++ Call.Init env config v :: after) =
      run ((run {} before).Init env config v).state after := by
    rw [run_append]; rfl
  rw [e, hy]
  refine ⟨hi, ?_⟩
  rw [hx]
  exact hv

/-- Witness of `Initialized_valid_after_Init`: a failed `Init`, then a successful one
with verification, then `Close` and `Connection`. -/
theorem Initialized_valid_after_Init_witness :
    (run {} ([Call.Init (Env.ready ⟨1⟩ []) Config.emptyHosts false] ++
      Call.Init (Env.ready ⟨1⟩ []) Config.plain true ::
        [Call.Close (Env.ready ⟨1⟩ []), Call.Connection (Env.notReady ⟨2⟩ (.New "timeout"))])
      ).Initialized = true ∧
    Valid (run {} ([Call.Init (Env.ready ⟨1⟩ []) Config.emptyHosts false] ++
      Call.Init (Env.ready ⟨1⟩ []) Config.plain true ::
        [Call.Close (Env.ready ⟨1⟩ []), Call.Connection (Env.notReady ⟨2⟩ (.New "timeout"))])) :=
  Initialized_valid_after_Init [Call.Init (Env.ready ⟨1⟩ []) Config.emptyHosts false]
    [Call.Close (Env.ready ⟨1⟩ []), Call.Connection (Env.notReady ⟨2⟩ (.New "timeout"))]
    (Env.ready ⟨1⟩ []) Config.plain true rfl (by
      intro k hk
      simp only [List.mem_cons, List.mem_singleton, List.not_mem_nil, or_false] at hk
      rcases hk with rfl | rfl <;> rfl)

/-- Claim C9 as stated fails: after a successful `Init` with `{hosts: "couchbase://x",
username: "u", password: "p", bucket_name: "b"}`, a successful `Init` with `{hosts:
"couchbase://y", username: "u2", password: "p2"}`, which omits `bucket_name`, leaves
`Bucket_name = "b"`, while a fresh producer holds the empty `Bucket_name` after the same
`Init`. -/
theorem Init_replaces_counterexample :
    (({} : couchbaseDBConnectionProducer).Init (Env.ready ⟨1⟩ []) Config.withBucket false).result.2
      = none ∧
    ((({} : couchbaseDBConnectionProducer).Init (Env.ready ⟨1⟩ []) Config.withBucket false).state.Init
      (Env.ready ⟨1⟩ []) Config.other false).result.2 = none ∧
    ((({} : couchbaseDBConnectionProducer).Init (Env.ready ⟨1⟩ []) Config.withBucket false).state.Init
      (Env.ready ⟨1⟩ []) Config.other false).state.Bucket_name = "b" ∧
    (({} : couchbaseDBConnectionProducer).Init (Env.ready ⟨1⟩ [])
      Config.other false).state.Bucket_name = "" := by
  refine ⟨rfl, rfl, rfl, rfl⟩

/-- An entry that decodes stores its value, or keeps the field when it is absent. -/
theorem Entry.stores_decode {α : Type} (e : Entry α) (field : α) (h : e.errors = []) :
    e.stores field (e.decode field) := by
  cases e with
  | absent => rfl
  | value v => rfl
  | invalid msg => simp [Entry.errors] at h

/-- Decoding a map without failing entries stores its settings. -/
theorem WeakDecode_stores (config : Config) (c : couchbaseDBConnectionProducer)
    (he : config.errors = []) : config.stores c (WeakDecode config c).1 := by
  simp only [Config.errors, List.append_eq_nil] at he
  obtain ⟨⟨⟨⟨⟨⟨⟨⟨⟨⟨⟨⟨_, _⟩, _⟩, e4⟩, _⟩, e6⟩, e7⟩, e8⟩, e9⟩, e10⟩, e11⟩, _⟩, _⟩ := he
  exact ⟨Entry.stores_decode _ _ e4, Entry.stores_decode _ _ e6, Entry.stores_decode _ _ e7,
    Entry.stores_decode _ _ e8, Entry.stores_decode _ _ e9, Entry.stores_decode _ _ e10,
    Entry.stores_decode _ _ e11⟩

/-- Claim C9, amended: for every producer state and every configuration map B for which
`Init` succeeds, each of the stored fields `Hosts`, `Username`, `Password`, `TLS`,
`Insecure_TLS`, `Base64Pem` and `Bucket_name` after the call is the value decoded from B
when B has an entry for it, and the value it had before the call when B has none; the
fields a freshly created producer holds after `Init(B)` are obtained in the same way from
the zero values, so the two agree on every key B supplies. -/
theorem Init_settings (env env' : Env) (c : couchbaseDBConnectionProducer) (config : Config)
    (v v' : Bool) (hok : (c.Init env config v).result.2 = none) :
    config.stores c (c.Init env config v).state ∧
    config.stores {} (({} : couchbaseDBConnectionProducer).Init env' config v').state := by
  obtain ⟨he, _⟩ := Init_ok_valid env c config v hok
  obtain ⟨i, x, hx⟩ := Init_frame env c config v
  obtain ⟨j, y, hy⟩ := Init_frame env' {} config v'
  rw [hx, hy]
  exact ⟨WeakDecode_stores config { c with rawConfig := some config } he,
    WeakDecode_stores config { ({} : couchbaseDBConnectionProducer) with rawConfig := some config } he⟩

/-- Witness of `Init_settings`: the producer left by `Init` with `Config.withBucket`,
reconfigured with `Config.other`. -/
theorem Init_settings_witness :
    Config.other.stores
      (({} : couchbaseDBConnectionProducer).Init (Env.ready ⟨1⟩ []) Config.withBucket false).state
      ((({} : couchbaseDBConnectionProducer).Init (Env.ready ⟨1⟩ []) Config.withBucket false).state.Init
        (Env.ready ⟨1⟩ []) Config.other false).state ∧
    Config.other.stores {}
      (({} : couchbaseDBConnectionProducer).Init (Env.ready ⟨1⟩ []) Config.other false).state :=
  Init_settings (Env.ready ⟨1⟩ []) (Env.ready ⟨1⟩ [])
    (({} : couchbaseDBConnectionProducer).Init (Env.ready ⟨1⟩ []) Config.withBucket false).state
    Config.other false false rfl

/-! ## `secretValues` -/

/-- Claim C10 as stated fails: on a freshly created producer `Username` and `Password` are
both the empty string, the table has the single key `""`, and the current `Password` is
mapped to "[username]", not to "[password]". -/
theorem secretValues_counterexample :
    ({} : couchbaseDBConnectionProducer).secretValues = [("", "[username]")] ∧
    ({} : couchbaseDBConnectionProducer).secretValues.get
      ({} : couchbaseDBConnectionProducer).Password = some "[username]" ∧
    ({} : couchbaseDBConnectionProducer).secretValues.get
      ({} : couchbaseDBConnectionProducer).Password ≠ some "[password]" := by
  refine ⟨by decide, by decide, by decide⟩

/-- Claim C10, amended: for every producer state, `secretValues()` maps the current
`Username` to "[username]", maps the current `Password` to "[password]" when it differs
from the `Username` (when the two are equal the single key is mapped to "[username]", the
entry written last), and has no other key. -/
theorem secretValues_table (c : couchbaseDBConnectionProducer) :
    c.secretValues.get c.Username = some "[username]" ∧
    (c.Password ≠ c.Username → c.secretValues.get c.Password = some "[password]") ∧
    (c.Password = c.Username → c.secretValues = [(c.Username, "[username]")]) ∧
    ∀ k, c.secretValues.get k ≠ none → k = c.Username ∨ k = c.Password := by
  refine ⟨?_, ?_, ?_, ?_⟩
  · simp [secretValues, StringMap.set, StringMap.get, List.lookup]
  · intro h
    have b1 : (c.Password == c.Username) = false := by simpa using h
    have b2 : (c.Password != c.Username) = true := by simpa using h
    simp [secretValues, StringMap.set, StringMap.get, List.lookup, List.filter, b1, b2]
  · intro h
    simp [secretValues, StringMap.set, List.filter, h]
  · intro k hk
    by_cases h1 : k = c.Username
    · exact Or.inl h1
    · by_cases h2 : k = c.Password
      · exact Or.inr h2
      · exfalso
        apply hk
        have b1 : (k == c.Username) = false := by simpa using h1
        have b2 : (k == c.Password) = false := by simpa using h2
        by_cases h3 : c.Password = c.Username
        · simp [secretValues, StringMap.set, StringMap.get, List.lookup, List.filter, b1, h3]
        · have b3 : (c.Password != c.Username) = true := by simpa using h3
          simp [secretValues, StringMap.set, StringMap.get, List.lookup, List.filter, b1, b2, b3]

/-! ## `Close` -/

/-- Claim C11: for every producer state, (a) if no connection is cached, `Close` makes no
transport call (it only takes and releases the mutex), returns nil and leaves the cached
reference nil; (b) if a connection is cached and the transport-level close succeeds,
`Close` returns nil and the cached reference is nil afterwards; (c) if a connection is
cached and the transport-level close fails with error `e`, `Close` returns exactly `e` and
the producer, its cached handle included, is unchanged. -/
theorem Close_result (env : Env) (c : couchbaseDBConnectionProducer) :
    (c.cluster = none →
      c.Close env = ⟨none, c, [Event.Lock, Event.Unlock]⟩) ∧
    (∀ cl, c.cluster = some cl → env.Close cl = none →
      c.Close env =
        ⟨none, { c with cluster := none }, [Event.Lock, Event.Close cl, Event.Unlock]⟩) ∧
    (∀ cl e, c.cluster = some cl → env.Close cl = some e →
      c.Close env = ⟨some e, c, [Event.Lock, Event.Close cl, Event.Unlock]⟩) := by
  refine ⟨fun hn => ?_, fun cl hc hok => ?_, fun cl e hc he => ?_⟩
  · cases c
    simp only at hn
    subst hn
    rfl
  · simp [Close, close, hc, hok]
  · simp [Close, close, hc, he]

/-- Witness of `Close_result`: the producer `plain` with nothing cached, and the producer
`cached` when the close succeeds and when it fails with "close failed". -/
theorem Close_result_witness :
    plain.Close (Env.down (.New "down")) = ⟨none, plain, [Event.Lock, Event.Unlock]⟩ ∧
    cached.Close (Env.ready ⟨1⟩ []) =
      ⟨none, { cached with cluster := none }, [Event.Lock, Event.Close ⟨7⟩, Event.Unlock]⟩ ∧
    cached.Close (Env.closeFails (.New "close failed")) =
      ⟨some (.New "close failed"), cached, [Event.Lock, Event.Close ⟨7⟩, Event.Unlock]⟩ :=
  ⟨(Close_result (Env.down (.New "down")) plain).1 rfl,
   (Close_result (Env.ready ⟨1⟩ []) cached).2.1 ⟨7⟩ rfl rfl,
   (Close_result (Env.closeFails (.New "close failed")) cached).2.2 ⟨7⟩ (.New "close failed")
     rfl rfl⟩

/-! ## The calls `Connection` makes on a cache miss -/

/-- The connect-and-wait part makes one connect call, with the stored hosts and
credentials and the given security configuration, and after it neither a connect nor a
decoding call. -/
theorem Connection.connect_trace (env : Env) (c : couchbaseDBConnectionProducer)
    (sec : SecurityConfig) (tr : List Event) :
    ∃ rest, (Connection.connect env c sec tr).trace =
        tr ++ Event.Connect c.Hosts
          { Username := c.Username, Password := c.Password, SecurityConfig := sec } :: rest ∧
      ∀ e ∈ rest, e.isConnect = false ∧ e.isDecoding = false := by
  simp only [Connection.connect]
  cases hc : env.Connect c.Hosts ⟨c.Username, c.Password, sec⟩ with
  | error err => exact ⟨[], by simp, by simp⟩
  | ok cl =>
    dsimp only
    split
    · refine ⟨[Event.Bucket cl c.Bucket_name,
        Event.BucketWaitUntilReady cl c.Bucket_name (5 * Second)], ?_, ?_⟩
      · cases env.BucketWaitUntilReady cl c.Bucket_name (5 * Second) <;> simp
      · simp [Event.isConnect, Event.isDecoding]
    · refine ⟨[Event.ClusterWaitUntilReady cl (5 * Second)], ?_, ?_⟩
      · cases env.ClusterWaitUntilReady cl (5 * Second) <;> simp
      · simp [Event.isConnect, Event.isDecoding]

/-- On a cache miss with TLS on, a `Base64Pem` that is not base64 makes `Connection` fail
after the decoding call alone, the producer unchanged. -/
theorem Connection_base64_error (env : Env) (c : couchbaseDBConnectionProducer) (err : Error)
    (hi : c.Initialized = true) (hn : c.cluster = none) (ht : c.TLS = true)
    (hd : env.DecodeString c.Base64Pem = .error err) :
    c.Connection env =
      ⟨(none, some (Wrapf "error decoding Base64Pem: \x7b\x7berr\x7d\x7d" err)), c,
        [Event.DecodeString c.Base64Pem]⟩ := by
  simp [Connection, hi, hn, ht, hd]

/-- On a cache miss with TLS on, decoded bytes without a certificate make `Connection`
fail after the two decoding calls, the producer unchanged. -/
theorem Connection_pem_error (env : Env) (c : couchbaseDBConnectionProducer) (pem : List Nat)
    (hi : c.Initialized = true) (hn : c.cluster = none) (ht : c.TLS = true)
    (hd : env.DecodeString c.Base64Pem = .ok pem) (ha : env.AppendCertsFromPEM pem = false) :
    c.Connection env =
      ⟨(none, some (.New "Failed to parse root certificate")), c,
        [Event.DecodeString c.Base64Pem, Event.AppendCertsFromPEM pem]⟩ := by
  simp [Connection, hi, hn, ht, hd, ha]

/-- On a cache miss with TLS on and a certificate that decodes, `Connection` is its
connect-and-wait part with the trust pool of the certificate and the stored
`Insecure_TLS` flag. -/
theorem Connection_miss_tls (env : Env) (c : couchbaseDBConnectionProducer) (pem : List Nat)
    (hi : c.Initialized = true) (hn : c.cluster = none) (ht : c.TLS = true)
    (hd : env.DecodeString c.Base64Pem = .ok pem) (ha : env.AppendCertsFromPEM pem = true) :
    c.Connection env = Connection.connect env c
      { TLSRootCAs := some ⟨[pem]⟩, TLSSkipVerify := c.Insecure_TLS }
      [Event.DecodeString c.Base64Pem, Event.AppendCertsFromPEM pem] := by
  simp [Connection, hi, hn, ht, hd, ha, NewCertPool]

/-- Claim C16: for every initialized producer with no cached connection: with TLS on, if
`Base64Pem` is not valid standard base64, or it decodes to bytes from which no certificate
can be added to the trust pool, then `Connection` returns a nil handle and an error, makes
no connect call (its trace holds the decoding calls only) and leaves the producer, its
nil cached cluster included, unchanged; with TLS off, `Connection` makes no base64 or PEM
decoding call and its first call is the connect call, with the stored hosts and
credentials and the zero-value security configuration. -/
theorem Connection_tls_material (env : Env) (c : couchbaseDBConnectionProducer)
    (hi : c.Initialized = true) (hn : c.cluster = none) :
    (c.TLS = true → ∀ err, env.DecodeString c.Base64Pem = .error err →
      (c.Connection env).result.1 = none ∧ (c.Connection env).result.2 ≠ none ∧
      (c.Connection env).trace = [Event.DecodeString c.Base64Pem] ∧
      (c.Connection env).state = c) ∧
    (c.TLS = true → ∀ pem, env.DecodeString c.Base64Pem = .ok pem →
      env.AppendCertsFromPEM pem = false →
      (c.Connection env).result.1 = none ∧ (c.Connection env).result.2 ≠ none ∧
      (c.Connection env).trace =
        [Event.DecodeString c.Base64Pem, Event.AppendCertsFromPEM pem] ∧
      (c.Connection env).state = c) ∧
    (c.TLS = false →
      ∃ rest, (c.Connection env).trace =
          Event.Connect c.Hosts
            { Username := c.Username, Password := c.Password, SecurityConfig := {} } :: rest ∧
        ∀ e ∈ rest, e.isConnect = false ∧ e.isDecoding = false) := by
  refine ⟨fun ht err hd => ?_, fun ht pem hd ha => ?_, fun ht => ?_⟩
  · rw [Connection_base64_error env c err hi hn ht hd]
    exact ⟨rfl, by simp, rfl, rfl⟩
  · rw [Connection_pem_error env c pem hi hn ht hd ha]
    exact ⟨rfl, by simp, rfl, rfl⟩
  · rw [Connection_miss_plain env c hi hn ht]
    simpa using Connection.connect_trace env c {} []

/-- Witness of `Connection_tls_material`: the TLS producer with the certificate text
"!!!" when base64 decoding fails, the TLS producer with the certificate text "QQ==" when
the decoded byte holds no certificate, and the producer `plain`. -/
theorem Connection_tls_material_witness :
    ((tls "!!!").Connection (Env.badBase64 ⟨1⟩ (.New "illegal base64 data"))).trace =
        [Event.DecodeString "!!!"] ∧
    ((tls "QQ==").Connection (Env.noCert ⟨1⟩ [65])).trace =
        [Event.DecodeString "QQ==", Event.AppendCertsFromPEM [65]] ∧
    ((tls "QQ==").Connection (Env.noCert ⟨1⟩ [65])).state = tls "QQ==" ∧
    ∃ rest, (plain.Connection (Env.ready ⟨1⟩ [])).trace =
        Event.Connect "couchbase://x"
          { Username := "u", Password := "p", SecurityConfig := {} } :: rest ∧
      ∀ e ∈ rest, e.isConnect = false ∧ e.isDecoding = false :=
  ⟨((Connection_tls_material (Env.badBase64 ⟨1⟩ (.New "illegal base64 data")) (tls "!!!")
      rfl rfl).1 rfl (.New "illegal base64 data") rfl).2.2.1,
   ((Connection_tls_material (Env.noCert ⟨1⟩ [65]) (tls "QQ==") rfl rfl).2.1 rfl [65] rfl
      rfl).2.2.1,
   ((Connection_tls_material (Env.noCert ⟨1⟩ [65]) (tls "QQ==") rfl rfl).2.1 rfl [65] rfl
      rfl).2.2.2,
   (Connection_tls_material (Env.ready ⟨1⟩ []) plain rfl rfl).2.2 rfl⟩

/-- Claim C17: on a cache miss that succeeds (initialized producer, no cached connection,
TLS off, `gocb.Connect` returns the handle `cl` and the readiness wait succeeds),
`Connection` makes exactly one connect call, with the stored `Hosts`, `Username` and
`Password`, followed by exactly one readiness wait with a timeout of five seconds and
nothing more: on the bucket `Bucket_name` of `cl`, with no wait on the cluster, when
`Bucket_name` is non-empty, and on the cluster, with no bucket opened, when it is empty;
the handle returned is `cl`, the one cached. -/
theorem Connection_miss_calls (env : Env) (c : couchbaseDBConnectionProducer) (cl : Cluster)
    (hi : c.Initialized = true) (hn : c.cluster = none) (ht : c.TLS = false)
    (hc : env.Connect c.Hosts
      { Username := c.Username, Password := c.Password, SecurityConfig := {} } = .ok cl) :
    (c.Bucket_name ≠ "" → env.BucketWaitUntilReady cl c.Bucket_name (5 * Second) = none →
      c.Connection env =
        ⟨(some cl, none), { c with cluster := some cl },
          [Event.Connect c.Hosts
              { Username := c.Username, Password := c.Password, SecurityConfig := {} },
            Event.Bucket cl c.Bucket_name,
            Event.BucketWaitUntilReady cl c.Bucket_name (5 * Second)]⟩) ∧
    (c.Bucket_name = "" → env.ClusterWaitUntilReady cl (5 * Second) = none →
      c.Connection env =
        ⟨(some cl, none), { c with cluster := some cl },
          [Event.Connect c.Hosts
              { Username := c.Username, Password := c.Password, SecurityConfig := {} },
            Event.ClusterWaitUntilReady cl (5 * Second)]⟩) := by
  rw [Connection_miss_plain env c hi hn ht]
  refine ⟨fun hb hw => ?_, fun hb hw => ?_⟩
  · have hb2 : (c.Bucket_name != "") = true := by simpa using hb
    simp [Connection.connect, hc, hb2, hw]
  · simp [Connection.connect, hc, hb, hw]

/-- Witness of `Connection_miss_calls`: the producer configured with `bucket_name = "b"`,
and the producer `plain` without a bucket name, where every library call succeeds. -/
theorem Connection_miss_calls_witness :
    plainBucket.Connection (Env.ready ⟨7⟩ []) =
      ⟨(some ⟨7⟩, none), { plainBucket with cluster := some ⟨7⟩ },
        [Event.Connect "couchbase://x" { Username := "u", Password := "p", SecurityConfig := {} },
          Event.Bucket ⟨7⟩ "b", Event.BucketWaitUntilReady ⟨7⟩ "b" 5000000000]⟩ ∧
    plain.Connection (Env.ready ⟨7⟩ []) =
      ⟨(some ⟨7⟩, none), { plain with cluster := some ⟨7⟩ },
        [Event.Connect "couchbase://x" { Username := "u", Password := "p", SecurityConfig := {} },
          Event.ClusterWaitUntilReady ⟨7⟩ 5000000000]⟩ :=
  ⟨(Connection_miss_calls (Env.ready ⟨7⟩ []) plainBucket ⟨7⟩ rfl rfl rfl rfl).1
      (by decide) rfl,
   (Connection_miss_calls (Env.ready ⟨7⟩ []) plain ⟨7⟩ rfl rfl rfl rfl).2 rfl rfl⟩

/-- On a cache miss every connect call of `Connection` carries the stored hosts and
credentials, with the zero-value security configuration when TLS is off and the trust
pool of the decoded certificate with the stored `Insecure_TLS` flag when it is on; there
is exactly one such call when TLS is off or the certificate decodes, and none otherwise. -/
theorem Connection_miss_connects (env : Env) (c : couchbaseDBConnectionProducer)
    (hi : c.Initialized = true) (hn : c.cluster = none) :
    (∀ e ∈ (c.Connection env).trace, e.isConnect = true →
      ∃ sec, e = Event.Connect c.Hosts
          { Username := c.Username, Password := c.Password, SecurityConfig := sec } ∧
        (c.TLS = false → sec = {}) ∧
        (c.TLS = true → ∃ pem, env.DecodeString c.Base64Pem = .ok pem ∧
          sec = { TLSRootCAs := some ⟨[pem]⟩, TLSSkipVerify := c.Insecure_TLS })) ∧
    ((c.TLS = false ∨ ∃ pem, env.DecodeString c.Base64Pem = .ok pem ∧
        env.AppendCertsFromPEM pem = true) →
      (c.Connection env).trace.countP Event.isConnect = 1) ∧
    (¬ (c.TLS = false ∨ ∃ pem, env.DecodeString c.Base64Pem = .ok pem ∧
        env.AppendCertsFromPEM pem = true) →
      (c.Connection env).trace.countP Event.isConnect = 0) := by
  have count : ∀ (tr rest : List Event) (x : Event), x.isConnect = true →
      tr.countP Event.isConnect = 0 → (∀ e ∈ rest, e.isConnect = false ∧ e.isDecoding = false) →
      (tr ++ x :: rest).countP Event.isConnect = 1 := by
    intro tr rest x hx htr hrest
    have hr : rest.countP Event.isConnect = 0 := by
      rw [List.countP_eq_zero]
      intro e he
      simp [(hrest e he).1]
    simp [List.countP_append, List.countP_cons, htr, hr, hx]
  by_cases ht : c.TLS = true
  · cases hd : env.DecodeString c.Base64Pem with
    | error err =>
      rw [Connection_base64_error env c err hi hn ht hd]
      refine ⟨?_, ?_, ?_⟩
      · intro e he hc
        simp only [List.mem_singleton] at he
        subst he
        simp [Event.isConnect] at hc
      · rintro (h | ⟨pem, h, _⟩)
        · rw [ht] at h; exact absurd h (by decide)
        · simp at h
      · intro _; simp [Event.isConnect]
    | ok pem =>
      by_cases ha : env.AppendCertsFromPEM pem = true
      · rw [Connection_miss_tls env c pem hi hn ht hd ha]
        obtain ⟨rest, hr, hrest⟩ := Connection.connect_trace env c
          { TLSRootCAs := some ⟨[pem]⟩, TLSSkipVerify := c.Insecure_TLS }
          [Event.DecodeString c.Base64Pem, Event.AppendCertsFromPEM pem]
        rw [hr]
        refine ⟨?_, ?_, ?_⟩
        · intro e he hc
          simp only [List.cons_append, List.nil_append, List.mem_cons] at he
          rcases he with rfl | rfl | rfl | he
          · simp [Event.isConnect] at hc
          · simp [Event.isConnect] at hc
          · exact ⟨_, rfl, fun h => by rw [ht] at h; exact absurd h (by decide),
              fun _ => ⟨pem, rfl, rfl⟩⟩
          · rw [(hrest e he).1] at hc; exact absurd hc (by decide)
        · intro _
          exact count _ _ _ rfl (by simp [Event.isConnect]) hrest
        · intro h
          exact absurd (Or.inr ⟨pem, rfl, ha⟩) h
      · have ha2 : env.AppendCertsFromPEM pem = false := by simpa using ha
        rw [Connection_pem_error env c pem hi hn ht hd ha2]
        refine ⟨?_, ?_, ?_⟩
        · intro e he hc
          simp only [List.mem_cons, List.mem_singleton, List.not_mem_nil, or_false] at he
          rcases he with rfl | rfl <;> simp [Event.isConnect] at hc
        · rintro (h | ⟨pem', h, h'⟩)
          · rw [ht] at h; exact absurd h (by decide)
          · simp only [Except.ok.injEq] at h
            subst h
            rw [ha2] at h'; exact absurd h' (by decide)
        · intro _; simp [Event.isConnect]
  · have ht2 : c.TLS = false := by simpa using ht
    rw [Connection_miss_plain env c hi hn ht2]
    obtain ⟨rest, hr, hrest⟩ := Connection.connect_trace env c {} []
    rw [hr]
    refine ⟨?_, ?_, ?_⟩
    · intro e he hc
      simp only [List.nil_append, List.mem_cons] at he
      rcases he with rfl | he
      · exact ⟨_, rfl, fun _ => rfl, fun h => absurd h ht⟩
      · rw [(hrest e he).1] at hc; exact absurd hc (by decide)
    · intro _
      exact count _ _ _ rfl (by simp) hrest
    · intro h
      exact absurd (Or.inl ht2) h

/-- Claim C12 as stated fails: the producer reached by `Init` with `Config.plain` and
verification (handle 7 is cached) and then `Init` with `Config.tlsBadPem` (accepted, the
handle stays cached) is initialized and holds a cached connection; after a successful
`Close`, the next `Connection` call fails on the certificate text "!!!" and makes no
connect call. -/
theorem Close_reconnect_counterexample :
    (run {} [Call.Init (Env.ready ⟨7⟩ []) Config.plain true,
      Call.Init (Env.ready ⟨8⟩ []) Config.tlsBadPem true]).Initialized = true ∧
    (run {} [Call.Init (Env.ready ⟨7⟩ []) Config.plain true,
      Call.Init (Env.ready ⟨8⟩ []) Config.tlsBadPem true]).cluster = some ⟨7⟩ ∧
    ((run {} [Call.Init (Env.ready ⟨7⟩ []) Config.plain true,
      Call.Init (Env.ready ⟨8⟩ []) Config.tlsBadPem true]).Close (Env.ready ⟨8⟩ [])).result
        = none ∧
    (((run {} [Call.Init (Env.ready ⟨7⟩ []) Config.plain true,
      Call.Init (Env.ready ⟨8⟩ []) Config.tlsBadPem true]).Close (Env.ready ⟨8⟩ [])).state.Connection
        (Env.badBase64 ⟨8⟩ (.New "illegal base64 data at input byte 0"))).trace
        = [Event.DecodeString "!!!"] := by
  refine ⟨rfl, rfl, rfl, rfl⟩

/-- Claim C12, amended: `Close` changes nothing but the cached handle: for every producer
state, `Close`, whether it succeeds or fails, leaves `Initialized`, `rawConfig` and every
decoded configuration field unchanged; hence for an initialized producer with a cached
connection, after a successful `Close` the cache is empty and the next `Connection` call
is a cache miss: every connect call it makes uses the same stored `Hosts`, `Username`,
`Password` and TLS settings as before the `Close`, and it makes exactly one when TLS is off
or the stored certificate decodes, and none when TLS is on and the certificate does not
decode. -/
theorem Close_frame_reconnect (env : Env) (c : couchbaseDBConnectionProducer) :
    (c.Close env).state = { c with cluster := (c.Close env).state.cluster } ∧
    (∀ env' cl, c.Initialized = true → c.cluster = some cl → (c.Close env).result = none →
      (c.Close env).state.cluster = none ∧
      (∀ e ∈ ((c.Close env).state.Connection env').trace, e.isConnect = true →
        ∃ sec, e = Event.Connect c.Hosts
            { Username := c.Username, Password := c.Password, SecurityConfig := sec } ∧
          (c.TLS = false → sec = {}) ∧
          (c.TLS = true → ∃ pem, env'.DecodeString c.Base64Pem = .ok pem ∧
            sec = { TLSRootCAs := some ⟨[pem]⟩, TLSSkipVerify := c.Insecure_TLS })) ∧
      ((c.TLS = false ∨ ∃ pem, env'.DecodeString c.Base64Pem = .ok pem ∧
          env'.AppendCertsFromPEM pem = true) →
        ((c.Close env).state.Connection env').trace.countP Event.isConnect = 1) ∧
      (¬ (c.TLS = false ∨ ∃ pem, env'.DecodeString c.Base64Pem = .ok pem ∧
          env'.AppendCertsFromPEM pem = true) →
        ((c.Close env).state.Connection env').trace.countP Event.isConnect = 0)) := by
  constructor
  · obtain ⟨x, hx⟩ := Close_frame env c
    rw [hx]
  · intro env' cl hi hc hok
    have hs : (c.Close env).state = { c with cluster := none } := by
      simp only [Close, close, hc] at hok ⊢
      cases hcl : env.Close cl with
      | some err => simp [hcl] at hok
      | none => rfl
    rw [hs]
    exact ⟨rfl, Connection_miss_connects env' { c with cluster := none } hi rfl⟩

/-- Witness of `Close_frame_reconnect`: the producer `cached` is closed and asked for a
connection again; the one connect call is made with the stored hosts and credentials. -/
theorem Close_frame_reconnect_witness :
    (cached.Close (Env.ready ⟨8⟩ [])).state.cluster = none ∧
    ((cached.Close (Env.ready ⟨8⟩ [])).state.Connection (Env.ready ⟨8⟩ [])).trace.countP
      Event.isConnect = 1 ∧
    ∀ e ∈ ((cached.Close (Env.ready ⟨8⟩ [])).state.Connection (Env.ready ⟨8⟩ [])).trace,
      e.isConnect = true →
      ∃ sec, e = Event.Connect "couchbase://x"
        { Username := "u", Password := "p", SecurityConfig := sec } ∧
        (cached.TLS = false → sec = {}) ∧
        (cached.TLS = true → ∃ pem, (Env.ready ⟨8⟩ []).DecodeString cached.Base64Pem = .ok pem ∧
          sec = { TLSRootCAs := some ⟨[pem]⟩, TLSSkipVerify := cached.Insecure_TLS }) :=
  ⟨((Close_frame_reconnect (Env.ready ⟨8⟩ []) cached).2 (Env.ready ⟨8⟩ []) ⟨7⟩ rfl rfl rfl).1,
   ((Close_frame_reconnect (Env.ready ⟨8⟩ []) cached).2 (Env.ready ⟨8⟩ []) ⟨7⟩ rfl rfl rfl).2.2.1
     (Or.inl rfl),
   ((Close_frame_reconnect (Env.ready ⟨8⟩ []) cached).2 (Env.ready ⟨8⟩ []) ⟨7⟩ rfl rfl rfl).2.1⟩

/-! ## The cached cluster and `Initialized` -/

/-- Method `Close` either empties the cache or leaves the producer as it is. -/
theorem Close_cluster (env : Env) (c : couchbaseDBConnectionProducer) :
    (c.Close env).state.cluster = none ∨ (c.Close env).state = c := by
  simp only [Close, close]
  split
  · split
    · exact Or.inr rfl
    · exact Or.inl rfl
  · exact Or.inl rfl

/-- Method `Init` either sets `Initialized`, or leaves the cached cluster as it is and
`Initialized` as the map decodes into it. -/
theorem Init_Initialized (env : Env) (c : couchbaseDBConnectionProducer) (config : Config)
    (v : Bool) :
    (c.Init env config v).state.Initialized = true ∨
    ((c.Init env config v).state.cluster = c.cluster ∧
      (c.Init env config v).state.Initialized = config.Initialized.decode c.Initialized) := by
  by_cases he : config.errors = []
  · by_cases hv : Valid (WeakDecode config { c with rawConfig := some config }).1
    · left
      rw [Init_valid env c config v he hv]
      cases v with
      | false => rfl
      | true =>
        obtain ⟨x, hx⟩ := Connection_frame env
          { (WeakDecode config { c with rawConfig := some config }).1 with Initialized := true }
        simp only [if_true]
        split <;> (dsimp only; rw [hx])
    · right
      rw [(Init_not_valid env c config v he hv).2.2.2]
      exact ⟨rfl, rfl⟩
  · right
    rw [Init_decode_error env c config v he]
    exact ⟨rfl, rfl⟩

/-- A call that leaves a set `Initialized` flag alone keeps the property that a cached
cluster implies `Initialized`. -/
theorem Call.apply_cluster_Initialized (k : Call) (c : couchbaseDBConnectionProducer)
    (hk : k.keepsInitialized) (h : c.cluster ≠ none → c.Initialized = true) :
    (k.apply c).cluster ≠ none → (k.apply c).Initialized = true := by
  cases k with
  | Init env config v =>
    simp only [Call.apply]
    intro hc
    rcases Init_Initialized env c config v with h1 | ⟨h1, h2⟩
    · exact h1
    · have hi : c.Initialized = true := h (by rw [← h1]; exact hc)
      rw [h2, hi]
      simp only [Call.keepsInitialized] at hk
      cases hcfg : config.Initialized with
      | absent => rfl
      | value b =>
        cases b with
        | true => rfl
        | false => exact absurd hcfg hk
      | invalid msg => rfl
  | Connection env =>
    simp only [Call.apply]
    intro hc
    obtain ⟨x, hx⟩ := Connection_frame env c
    by_cases hi : c.Initialized = true
    · rw [hx]; exact hi
    · have hs : (c.Connection env).state = c := by
        simp [couchbaseDBConnectionProducer.Connection, hi]
      rw [hs] at hc ⊢
      exact h hc
  | Close env =>
    simp only [Call.apply]
    intro hc
    rcases Close_cluster env c with h1 | h1
    · exact absurd h1 hc
    · rw [h1] at hc ⊢
      exact h hc

/-- The part of claim C13 that holds: in every state reached from a freshly created
producer by `Init`, `Connection` and `Close` calls none of whose maps carries
`Initialized: false`, a non-nil cached cluster implies `Initialized = true`. -/
theorem cluster_Initialized_of_keeps (calls : List Call)
    (hk : ∀ k ∈ calls, k.keepsInitialized) :
    (run {} calls).cluster ≠ none → (run {} calls).Initialized = true := by
  have gen : ∀ (calls : List Call) (c : couchbaseDBConnectionProducer),
      (∀ k ∈ calls, k.keepsInitialized) → (c.cluster ≠ none → c.Initialized = true) →
      (run c calls).cluster ≠ none → (run c calls).Initialized = true := by
    intro calls
    induction calls with
    | nil => intro c _ h; exact h
    | cons k ks ih =>
      intro c hk h
      exact ih (k.apply c) (fun k' hk' => hk k' (List.mem_cons_of_mem k hk'))
        (Call.apply_cluster_Initialized k c (hk k (List.mem_cons_self k ks)) h)
  exact gen calls {} hk (fun h => absurd rfl h)

/-- Claim C13, the code at the failing input: after `Init` with `{hosts: "couchbase://x",
username: "u", password: "p"}` and verification, which caches handle 7, `Init` with the
map `{hosts: "", Initialized: false}` fails with "hosts cannot be empty" and leaves a
producer whose cached cluster is handle 7 and whose `Initialized` is false. -/
theorem cluster_Initialized_failing :
    ((run {} [Call.Init (Env.ready ⟨7⟩ []) Config.plain true]).Init (Env.ready ⟨7⟩ [])
      Config.emptyHostsUninitialized false).result =
        (none, some (.New "hosts cannot be empty")) ∧
    (run {} [Call.Init (Env.ready ⟨7⟩ []) Config.plain true,
      Call.Init (Env.ready ⟨7⟩ []) Config.emptyHostsUninitialized false]).cluster = some ⟨7⟩ ∧
    (run {} [Call.Init (Env.ready ⟨7⟩ []) Config.plain true,
      Call.Init (Env.ready ⟨7⟩ []) Config.emptyHostsUninitialized false]).Initialized = false := by
  refine ⟨rfl, rfl, rfl⟩

/-! ## Verification of the connection in `Init` -/

/-- The text built for a failed verification: the context followed by the message of the
error. -/
theorem Replace_verifying (text : String) :
    Replace "error verifying connection: \x7b\x7berr\x7d\x7d" "\x7b\x7berr\x7d\x7d" text =
      "error verifying connection: " ++ text := by
  apply String.ext
  simp [Replace, replaceChars, List.isPrefixOf]

/-- Claim C14: for a freshly created producer and every configuration that passes
validation (it decodes without error, hosts, username and password are non-empty, and if
tls then `base64pem` is non-empty and hosts is prefixed `couchbases://`), if `Init` is
called with `verifyConnection = true` and the eager `Connection` call, made on the decoded
producer with `Initialized` set, fails with error `e`, then `Init` returns a nil saved
configuration and the error that wraps `e` under the message "error verifying connection: "
followed by the message of `e`, and the producer is left with `Initialized = true`. -/
theorem Init_verify_fails (env : Env) (config : Config) (e : Error)
    (he : config.errors = [])
    (h1 : config.hosts.decode "" ≠ "") (h2 : config.username.decode "" ≠ "")
    (h3 : config.password.decode "" ≠ "")
    (ht : config.tls.decode false = true →
      config.base64pem.decode "" ≠ "" ∧
        HasPrefix (config.hosts.decode "") "couchbases://" = true)
    (hconn : (Connection env
      { (WeakDecode config { ({} : couchbaseDBConnectionProducer) with
          rawConfig := some config }).1 with Initialized := true }).result.2 = some e) :
    (({} : couchbaseDBConnectionProducer).Init env config true).result =
      (none, some (.Wrapped ("error verifying connection: " ++ e.text) e)) ∧
    (({} : couchbaseDBConnectionProducer).Init env config true).state.Initialized = true := by
  have hv : Valid (WeakDecode config
      { ({} : couchbaseDBConnectionProducer) with rawConfig := some config }).1 :=
    ⟨h1, h2, h3, ht⟩
  obtain ⟨x, hx⟩ := Connection_frame env
    { (WeakDecode config { ({} : couchbaseDBConnectionProducer) with
        rawConfig := some config }).1 with Initialized := true }
  rw [Init_valid env {} config true he hv]
  simp only [if_true, hconn]
  refine ⟨?_, by rw [hx]⟩
  simp only [Wrapf, Replace_verifying]

/-- Witness of `Init_verify_fails`: the configuration `{hosts: "couchbase://x", username:
"u", password: "p"}` when `gocb.Connect` fails with "no route". -/
theorem Init_verify_fails_witness :
    (({} : couchbaseDBConnectionProducer).Init (Env.down (.New "no route")) Config.plain true).result =
      (none, some (.Wrapped ("error verifying connection: " ++
        (Wrapf "error in Connection: \x7b\x7berr\x7d\x7d" (.New "no route")).text)
        (Wrapf "error in Connection: \x7b\x7berr\x7d\x7d" (.New "no route")))) ∧
    (({} : couchbaseDBConnectionProducer).Init (Env.down (.New "no route"))
      Config.plain true).state.Initialized = true :=
  Init_verify_fails (Env.down (.New "no route")) Config.plain
    (Wrapf "error in Connection: \x7b\x7berr\x7d\x7d" (.New "no route")) rfl (by decide)
    (by decide) (by decide) (fun h => absurd h (by decide)) rfl

/-! ## `secretValues` after `Init` -/

/-- The keys of the redaction table are the current `Username` and `Password`. -/
theorem secretValues_keys (c : couchbaseDBConnectionProducer) (k : String) :
    c.secretValues.get k ≠ none ↔ k = c.Username ∨ k = c.Password := by
  by_cases h1 : k = c.Username
  · subst h1
    simp [secretValues, StringMap.set, StringMap.get, List.lookup]
  · have b1 : (k == c.Username) = false := by simpa using h1
    by_cases h2 : k = c.Password
    · subst h2
      have b3 : (c.Password != c.Username) = true := by simpa using h1
      simp [secretValues, StringMap.set, StringMap.get, List.lookup, List.filter, b1, b3]
    · have b2 : (k == c.Password) = false := by simpa using h2
      by_cases h3 : c.Password = c.Username
      · simp [secretValues, StringMap.set, StringMap.get, List.lookup, List.filter, b1, h1, h2, h3]
      · have b3 : (c.Password != c.Username) = true := by simpa using h3
        simp [secretValues, StringMap.set, StringMap.get, List.lookup, List.filter, b1, b2, b3,
          h1, h2]

/-- Claim C15: after every sequence of calls that ends with an `Init` call whose map
supplies the username `u` and the password `p`, whether that call succeeds or fails,
`secretValues()` has `u` and `p` as keys and no other key, so none that comes from the
credentials of an earlier `Init` call unless it equals `u` or `p`. -/
theorem secretValues_latest (calls : List Call) (env : Env) (config : Config) (v : Bool)
    (u p : String) (hu : config.username = .value u) (hp : config.password = .value p) :
    (run {} (calls ++ [Call.Init env config v])).secretValues.get u ≠ none ∧
    (run {} (calls ++ [Call.Init env config v])).secretValues.get p ≠ none ∧
    ∀ k, (run {} (calls ++ [Call.Init env config v])).secretValues.get k ≠ none →
      k = u ∨ k = p := by
  have e : run {} (calls ++ [Call.Init env config v]) =
      ((run {} calls).Init env config v).state := by
    rw [run_append]; rfl
  obtain ⟨i, x, hx⟩ := Init_frame env (run {} calls) config v
  have hU : (run {} (calls ++ [Call.Init env config v])).Username = u := by
    rw [e, hx]; simp [WeakDecode, hu, Entry.decode]
  have hP : (run {} (calls ++ [Call.Init env config v])).Password = p := by
    rw [e, hx]; simp [WeakDecode, hp, Entry.decode]
  refine ⟨?_, ?_, ?_⟩
  · rw [secretValues_keys, hU]; exact Or.inl rfl
  · rw [secretValues_keys, hP]; exact Or.inr rfl
  · intro k hk
    rw [secretValues_keys, hU, hP] at hk
    exact hk

/-- Witness of `secretValues_latest`: `Init` with the credentials `u`, `p`, then `Init`
with the credentials `u2`, `p2`. -/
theorem secretValues_latest_witness :
    (run {} ([Call.Init (Env.ready ⟨1⟩ []) Config.plain true] ++
      [Call.Init (Env.ready ⟨1⟩ []) Config.other false])).secretValues.get "u2" ≠ none ∧
    (run {} ([Call.Init (Env.ready ⟨1⟩ []) Config.plain true] ++
      [Call.Init (Env.ready ⟨1⟩ []) Config.other false])).secretValues.get "p2" ≠ none ∧
    ∀ k, (run {} ([Call.Init (Env.ready ⟨1⟩ []) Config.plain true] ++
      [Call.Init (Env.ready ⟨1⟩ []) Config.other false])).secretValues.get k ≠ none →
      k = "u2" ∨ k = "p2" :=
  secretValues_latest [Call.Init (Env.ready ⟨1⟩ []) Config.plain true] (Env.ready ⟨1⟩ [])
    Config.other false "u2" "p2" rfl rfl

/-! ## The order of the validation rules -/

/-- On a configuration that decodes, `Init` returns the error of the first rule the decoded
configuration violates, without any call besides taking the mutex, and no rule is violated
exactly when the decoded configuration is valid. -/
theorem Init_firstViolation (env : Env) (c : couchbaseDBConnectionProducer) (config : Config)
    (v : Bool) (he : config.errors = []) :
    (∀ err, firstViolation (WeakDecode config { c with rawConfig := some config }).1.Hosts
        (WeakDecode config { c with rawConfig := some config }).1.Username
        (WeakDecode config { c with rawConfig := some config }).1.Password
        (WeakDecode config { c with rawConfig := some config }).1.TLS
        (WeakDecode config { c with rawConfig := some config }).1.Base64Pem = some err →
      c.Init env config v =
        ⟨(none, some err), (WeakDecode config { c with rawConfig := some config }).1,
          [Event.Lock, Event.Unlock]⟩) ∧
    (firstViolation (WeakDecode config { c with rawConfig := some config }).1.Hosts
        (WeakDecode config { c with rawConfig := some config }).1.Username
        (WeakDecode config { c with rawConfig := some config }).1.Password
        (WeakDecode config { c with rawConfig := some config }).1.TLS
        (WeakDecode config { c with rawConfig := some config }).1.Base64Pem = none ↔
      Valid (WeakDecode config { c with rawConfig := some config }).1) := by
  simp only [Init, Valid]
  rcases hW : WeakDecode config { c with rawConfig := some config } with ⟨d, e⟩
  have h := WeakDecode_err config { c with rawConfig := some config }
  rw [hW, if_pos he] at h
  dsimp only at h
  subst h
  dsimp only
  by_cases h1 : d.Hosts = ""
  · simp [firstViolation, len_beq_zero, h1]
  by_cases h2 : d.Username = ""
  · simp [firstViolation, len_beq_zero, h1, h2]
  by_cases h3 : d.Password = ""
  · simp [firstViolation, len_beq_zero, h1, h2, h3]
  by_cases ht : d.TLS = true
  · by_cases h5 : d.Base64Pem = ""
    · simp [firstViolation, len_beq_zero, h1, h2, h3, ht, h5]
    by_cases h6 : HasPrefix d.Hosts "couchbases://" = true
    · simp [firstViolation, len_beq_zero, h1, h2, h3, ht, h5, h6]
    · simp [firstViolation, len_beq_zero, h1, h2, h3, ht, h5, h6]
  · simp [firstViolation, len_beq_zero, h1, h2, h3, ht]

/-- Claim C18 as stated fails: the configuration that holds nothing but a port that does
not convert violates rule (1), hosts empty, yet `Init` on a fresh producer returns the
decode error, not "hosts cannot be empty". -/
theorem Init_order_counterexample :
    Config.emptyBadPort.hosts = .absent ∧
    (({} : couchbaseDBConnectionProducer).Init (Env.ready ⟨1⟩ []) Config.emptyBadPort false).result
      = (none, some (.Decoding ["port: cannot parse as int"])) ∧
    (({} : couchbaseDBConnectionProducer).Init (Env.ready ⟨1⟩ []) Config.emptyBadPort false).result.2
      ≠ some (.New "hosts cannot be empty") := by
  refine ⟨rfl, rfl, by decide⟩

/-- Claim C18, amended: validation is ordered and fail-fast: for a freshly created producer
and every configuration that decodes without error, when one of the five rules is
violated the error `Init` returns, for either value of `verifyConnection` and with a nil
saved configuration, is the one for the first violated rule in the order (1) hosts empty,
(2) username empty, (3) password empty, (4) tls and `base64pem` empty, (5) tls and hosts
not prefixed `couchbases://`; and validation passes, `Init` without verification returning
a nil error, if and only if none of the five rules is violated. -/
theorem Init_order (env : Env) (config : Config) (he : config.errors = []) :
    (∀ v err, firstViolation (config.hosts.decode "") (config.username.decode "")
        (config.password.decode "") (config.tls.decode false) (config.base64pem.decode "")
          = some err →
      (({} : couchbaseDBConnectionProducer).Init env config v).result = (none, some err)) ∧
    (firstViolation (config.hosts.decode "") (config.username.decode "")
        (config.password.decode "") (config.tls.decode false) (config.base64pem.decode "")
          = none ↔
      (({} : couchbaseDBConnectionProducer).Init env config false).result.2 = none) := by
  constructor
  · intro v err herr
    rw [(Init_firstViolation env {} config v he).1 err herr]
  · constructor
    · intro hnone
      have hv := ((Init_firstViolation env {} config false he).2).1 hnone
      rw [Init_valid env {} config false he hv]
      rfl
    · intro hok
      exact ((Init_firstViolation env {} config false he).2).2
        (Init_ok_valid env {} config false hok).2

/-- Witness of `Init_order`: the entirely empty configuration yields the hosts error, and
the configuration `{hosts: "couchbase://x", username: "u", password: "p"}` passes. -/
theorem Init_order_witness :
    (({} : couchbaseDBConnectionProducer).Init (Env.ready ⟨1⟩ []) {} true).result =
      (none, some (.New "hosts cannot be empty")) ∧
    (({} : couchbaseDBConnectionProducer).Init (Env.ready ⟨1⟩ []) Config.plain false).result.2
      = none :=
  ⟨(Init_order (Env.ready ⟨1⟩ []) {} rfl).1 true (.New "hosts cannot be empty") rfl,
   (Init_order (Env.ready ⟨1⟩ []) Config.plain rfl).2.1 (by decide)⟩

/-! ## The mutex -/

/-- The connect-and-wait part of `Connection` makes no call on the mutex beyond those
already in `tr`. -/
theorem Connection.connect_mutex (env : Env) (c : couchbaseDBConnectionProducer)
    (sec : SecurityConfig) (tr : List Event) (h : ∀ e ∈ tr, e.isMutex = false) :
    ∀ e ∈ (Connection.connect env c sec tr).trace, e.isMutex = false := by
  simp only [Connection.connect]
  cases hc : env.Connect c.Hosts ⟨c.Username, c.Password, sec⟩ with
  | error err =>
    intro e he
    simp only [List.mem_append, List.mem_singleton] at he
    rcases he with he | rfl
    · exact h e he
    · rfl
  | ok cl =>
    dsimp only
    split
    · have : ∀ e ∈ tr ++ [Event.Connect c.Hosts ⟨c.Username, c.Password, sec⟩] ++
          [Event.Bucket cl c.Bucket_name,
            Event.BucketWaitUntilReady cl c.Bucket_name (5 * Second)], e.isMutex = false := by
        intro e he
        simp only [List.mem_append, List.mem_cons, List.mem_singleton, List.not_mem_nil,
          or_false] at he
        rcases he with (he | rfl) | rfl | rfl
        · exact h e he
        · rfl
        · rfl
        · rfl
      cases env.BucketWaitUntilReady cl c.Bucket_name (5 * Second) <;> exact this
    · have : ∀ e ∈ tr ++ [Event.Connect c.Hosts ⟨c.Username, c.Password, sec⟩] ++
          [Event.ClusterWaitUntilReady cl (5 * Second)], e.isMutex = false := by
        intro e he
        simp only [List.mem_append, List.mem_singleton] at he
        rcases he with (he | rfl) | rfl
        · exact h e he
        · rfl
        · rfl
      cases env.ClusterWaitUntilReady cl (5 * Second) <;> exact this

/-- Method `Connection` makes no call on the mutex. -/
theorem Connection_mutex (env : Env) (c : couchbaseDBConnectionProducer) :
    ∀ e ∈ (c.Connection env).trace, e.isMutex = false := by
  simp only [Connection]
  split
  · simp
  · split
    · simp
    · split
      · split
        · simp [Event.isMutex]
        · split
          · simp [Event.isMutex]
          · exact Connection.connect_mutex _ _ _ _ (by simp [Event.isMutex])
      · exact Connection.connect_mutex _ _ _ _ (by simp)

/-- The sequential part of claim C19: on every return path the calls of `Init` and of
`Close` begin with `Lock` and end with `Unlock`, with no call on the mutex in between, and
`Connection` makes no call on the mutex. -/
theorem mutex_calls (env : Env) (c : couchbaseDBConnectionProducer) (config : Config)
    (v : Bool) :
    (∃ inner, (c.Init env config v).trace = Event.Lock :: inner ++ [Event.Unlock] ∧
      ∀ e ∈ inner, e.isMutex = false) ∧
    (∃ inner, (c.Close env).trace = Event.Lock :: inner ++ [Event.Unlock] ∧
      ∀ e ∈ inner, e.isMutex = false) ∧
    ∀ e ∈ (c.Connection env).trace, e.isMutex = false := by
  refine ⟨?_, ?_, Connection_mutex env c⟩
  · by_cases he : config.errors = []
    · by_cases hv : Valid (WeakDecode config { c with rawConfig := some config }).1
      · rw [Init_valid env c config v he hv]
        cases v with
        | false => exact ⟨[], rfl, by simp⟩
        | true =>
          simp only [if_true]
          split <;> exact ⟨_, rfl, Connection_mutex env _⟩
      · rw [(Init_not_valid env c config v he hv).2.2.1]
        exact ⟨[], rfl, by simp⟩
    · rw [Init_decode_error env c config v he]
      exact ⟨[], rfl, by simp⟩
  · refine ⟨(c.close env).trace, rfl, ?_⟩
    simp only [close]
    split
    · split <;> simp [Event.isMutex]
    · simp

/-! ## Verification with a cached handle -/

/-- Claim C20 as stated fails at two inputs. The producer left by a verified `Init` with
`Config.tlsGood` holds the cached handle 7 with TLS on; the configuration `Config.other`,
which passes validation on its own, is merged into it, the stored `TLS` flag stays on, and
`Init` with verification fails with the scheme error. And the producer `cached`, given
the configuration `Config.plainBadPort`, whose hosts, username and password are in order,
gets the decode error. -/
theorem Init_verify_cached_counterexample :
    (({} : couchbaseDBConnectionProducer).Init (Env.ready ⟨7⟩ [65]) Config.tlsGood true).state.cluster
      = some ⟨7⟩ ∧
    (({} : couchbaseDBConnectionProducer).Init (Env.ready ⟨8⟩ []) Config.other false).result.2
      = none ∧
    ((({} : couchbaseDBConnectionProducer).Init (Env.ready ⟨7⟩ [65]) Config.tlsGood true).state.Init
      (Env.ready ⟨8⟩ []) Config.other true).result =
        (none, some (.New "hosts list must start with couchbases:// for TLS connection")) ∧
    cached.cluster = some ⟨7⟩ ∧
    (cached.Init (Env.ready ⟨8⟩ []) Config.plainBadPort true).result =
      (none, some (.Decoding ["port: cannot parse as int"])) := by
  refine ⟨rfl, rfl, rfl, rfl, rfl⟩

/-- Claim C20, amended: for every producer state that holds a cached connection and every
configuration that decodes without error and, merged into the stored configuration,
satisfies the five validation rules, `Init` with `verifyConnection = true` returns the
given map and a nil error, makes no decoding, connect or readiness call (it only takes and
releases the mutex), and the cached handle after the call is the same handle as before,
whatever hosts or credentials the new configuration carries. -/
theorem Init_verify_cached (env : Env) (c : couchbaseDBConnectionProducer) (config : Config)
    (cl : Cluster) (hc : c.cluster = some cl) (he : config.errors = [])
    (hv : Valid (WeakDecode config { c with rawConfig := some config }).1) :
    (c.Init env config true).result = (some config, none) ∧
    (c.Init env config true).trace = [Event.Lock, Event.Unlock] ∧
    (c.Init env config true).state.cluster = some cl := by
  have hd : (WeakDecode config { c with rawConfig := some config }).1.cluster = some cl := hc
  rw [Init_valid env c config true he hv]
  rw [Connection_hit env
    { (WeakDecode config { c with rawConfig := some config }).1 with Initialized := true }
    cl rfl hd]
  exact ⟨rfl, rfl, hd⟩

/-- Witness of `Init_verify_cached`: the producer `cached`, opened for `couchbase://x`, is
given the configuration for `couchbase://y` in an environment that would connect to
handle 8. -/
theorem Init_verify_cached_witness :
    (cached.Init (Env.ready ⟨8⟩ []) Config.other true).result = (some Config.other, none) ∧
    (cached.Init (Env.ready ⟨8⟩ []) Config.other true).trace = [Event.Lock, Event.Unlock] ∧
    (cached.Init (Env.ready ⟨8⟩ []) Config.other true).state.cluster = some ⟨7⟩ :=
  Init_verify_cached (Env.ready ⟨8⟩ []) cached Config.other ⟨7⟩ rfl rfl
    ⟨by decide, by decide, by decide, fun h => absurd h (by decide)⟩

end Couchbase
